import Mathlib

/-!
Verification development for the loannex-backend serverless handlers.

The JavaScript sources are shallowly embedded: log text is `List Char`,
JavaScript values flowing through the handlers are the `Json` type below
(with an `undefv` constructor for JavaScript `undefined`), JSON numbers are
kept as exact decimals `mant / 10 ^ fdigits`, and each regular expression
from the source is embedded as a dedicated scanning function that mirrors
the leftmost-match semantics of `String.prototype.match`.
-/

set_option maxRecDepth 20000

/-! ## Character and list-of-characters helpers -/

/-- The apostrophe character (U+0027). -/
def aposChar : Char := Char.ofNat 39

/-- Lower-case an ASCII letter; other characters are unchanged.  Models the
case folding performed by a JavaScript regex `i` flag on the ASCII patterns
used in this code base. -/
def lcChar (c : Char) : Char :=
  if 'A' ≤ c ∧ c ≤ 'Z' then Char.ofNat (c.toNat + 32) else c

/-- JavaScript `\s` on the characters that occur in these logs. -/
def isJsWs (c : Char) : Bool :=
  c == ' ' || c == '\t' || c == '\n' || c == '\x0d' || c == '\x0c' || c == '\x0b'

/-- ASCII digit test, JavaScript `\d`. -/
def isDigitChar (c : Char) : Bool := '0' ≤ c && c ≤ '9'

/-- JavaScript `\w` (word character). -/
def isWordChar (c : Char) : Bool :=
  isDigitChar c || ('a' ≤ c && c ≤ 'z') || ('A' ≤ c && c ≤ 'Z') || c == '_'

/-- Character class `[A-Z0-9-]` under the `i` flag. -/
def isNexIdChar (c : Char) : Bool :=
  isDigitChar c || ('a' ≤ c && c ≤ 'z') || ('A' ≤ c && c ≤ 'Z') || c == '-'

/-- Case-sensitive "pattern is a prefix of text". -/
def litAt : List Char → List Char → Bool
  | [], _ => true
  | _ :: _, [] => false
  | p :: ps, c :: cs => p == c && litAt ps cs

/-- Case-insensitive "pattern is a prefix of text". -/
def litAtCI : List Char → List Char → Bool
  | [], _ => true
  | _ :: _, [] => false
  | p :: ps, c :: cs => lcChar p == lcChar c && litAtCI ps cs

/-- JavaScript `text.includes(pat)`. -/
def jsIncludes (s pat : List Char) : Bool :=
  match s with
  | [] => litAt pat []
  | _ :: rest => litAt pat s || jsIncludes rest pat

/-- Case-insensitive containment, for `i`-flagged literal regexes. -/
def ciContains (s pat : List Char) : Bool :=
  match s with
  | [] => litAtCI pat []
  | _ :: rest => litAtCI pat s || ciContains rest pat

/-- JavaScript `text.indexOf(pat)` (`none` models `-1`). -/
def jsIndexOf (s pat : List Char) : Option Nat :=
  match s with
  | [] => if litAt pat [] then some 0 else none
  | _ :: rest =>
      if litAt pat s then some 0
      else (jsIndexOf rest pat).map (· + 1)

/-- Try a position-local matcher at every suffix, leftmost success first.
This mirrors how a JavaScript regex engine scans for the first position at
which the whole pattern matches. -/
def scanFirst {α : Type} (f : List Char → Option α) : List Char → Option α
  | [] => f []
  | c :: rest =>
      match f (c :: rest) with
      | some a => some a
      | none => scanFirst f rest

/-- Drop a case-sensitive literal from the front, or fail. -/
def dropLit (pat s : List Char) : Option (List Char) :=
  if litAt pat s then some (s.drop pat.length) else none

/-- Drop a case-insensitive literal from the front, or fail. -/
def dropLitCI (pat s : List Char) : Option (List Char) :=
  if litAtCI pat s then some (s.drop pat.length) else none

/-- Munch one-or-more characters of a class (a regex `[..]+`), returning the
munched run and the rest. -/
def munch1 (p : Char → Bool) (s : List Char) : Option (List Char × List Char) :=
  let t := s.takeWhile p
  if t.isEmpty then none else some (t, s.dropWhile p)

/-- JavaScript `String.prototype.trim`. -/
def jsTrim (s : List Char) : List Char :=
  ((s.dropWhile isJsWs).reverse.dropWhile isJsWs).reverse

/-- Split on the newline character, JavaScript `text.split('\n')`. -/
def splitLinesAux : List Char → List Char → List (List Char)
  | acc, [] => [acc.reverse]
  | acc, c :: rest =>
      if c == '\n' then acc.reverse :: splitLinesAux [] rest
      else splitLinesAux (c :: acc) rest

/-- All lines of a log text. -/
def splitLines (s : List Char) : List (List Char) := splitLinesAux [] s

/-- Digits of a capture group read as a number, JavaScript `parseInt`. -/
def digitsToNat (ds : List Char) : Nat :=
  ds.foldl (fun acc c => 10 * acc + (c.toNat - 48)) 0

/-! ## JavaScript values

`Json` doubles as the type of parsed JSON and of the dynamic values the
handlers pass around.  `undefv` is JavaScript `undefined` (produced by a
missing-property lookup), `nul` is JSON `null`.  A number is the exact
decimal `mant / 10 ^ fdigits`. -/

mutual
inductive Json where
  | undefv : Json
  | nul : Json
  | jbool : Bool → Json
  | num : Int → Nat → Json
  | str : List Char → Json
  | arr : JsonList → Json
  | obj : JsonFields → Json
deriving DecidableEq
inductive JsonList where
  | nil : JsonList
  | cons : Json → JsonList → JsonList
deriving DecidableEq
inductive JsonFields where
  | nil : JsonFields
  | cons : List Char → Json → JsonFields → JsonFields
deriving DecidableEq
end

/-- JavaScript truthiness of the values that can appear here. -/
def Json.truthy : Json → Bool
  | .undefv => false
  | .nul => false
  | .jbool b => b
  | .num m _ => !(m == 0)
  | .str s => !s.isEmpty
  | .arr _ => true
  | .obj _ => true

/-- JavaScript `a || b` on values. -/
def jsOr (a b : Json) : Json := if a.truthy then a else b

/-- Property lookup in an object's field list.  JavaScript object literals
and `JSON.parse` keep the last of duplicate keys, hence the right-biased
search. -/
def lookupFields : JsonFields → List Char → Option Json
  | .nil, _ => none
  | .cons k v rest, key =>
      match lookupFields rest key with
      | some r => some r
      | none => if k == key then some v else none

/-- JavaScript `o.k`: `undefined` when the key is absent or the value is not
an object. -/
def Json.getF : Json → List Char → Json
  | .obj fs, k => (lookupFields fs k).getD .undefv
  | _, _ => .undefv

/-- JavaScript optional chaining `o?.k`. -/
def Json.oc : Json → List Char → Json
  | .undefv, _ => .undefv
  | .nul, _ => .undefv
  | j, k => j.getF k

/-- JavaScript `a?.[0]` on the array values produced by `JSON.parse`. -/
def Json.och : Json → Json
  | .arr (.cons h _) => h
  | _ => .undefv

/-- JavaScript strict equality `v === 'lit'` against a string literal. -/
def jsStrictEqStr (j : Json) (s : List Char) : Bool :=
  match j with
  | .str t => t == s
  | _ => false

/-! ## A JSON parser, mirroring `JSON.parse`

Fuelled recursion; the fuel is always taken large enough (`length + 1`)
that it never runs out on an input the JavaScript parser accepts.  String
escapes beyond the simple ones used by these logs make the parse fail,
which the callers treat the same way as a `JSON.parse` exception. -/

def parseStrBody : Nat → List Char → Option (List Char × List Char)
  | 0, _ => none
  | _, [] => none
  | fuel + 1, c :: rest =>
      if c == '"' then some ([], rest)
      else if c == '\\' then
        match rest with
        | [] => none
        | e :: rest2 =>
            let d? : Option Char :=
              if e == '"' then some '"'
              else if e == '\\' then some '\\'
              else if e == '/' then some '/'
              else if e == 'n' then some '\n'
              else if e == 't' then some '\t'
              else if e == 'r' then some '\x0d'
              else none
            match d? with
            | none => none
            | some d => (parseStrBody fuel rest2).map (fun p => (d :: p.1, p.2))
      else (parseStrBody fuel rest).map (fun p => (c :: p.1, p.2))

/-- Parse a JSON number starting at the head of the input. -/
def parseNumLit (s : List Char) : Option (Json × List Char) :=
  let (neg, s1) := if litAt ['-'] s then (true, s.drop 1) else (false, s)
  match munch1 isDigitChar s1 with
  | none => none
  | some (ip, s2) =>
      let (mant0, fd0, s3) :=
        if litAt ['.'] s2 then
          match munch1 isDigitChar (s2.drop 1) with
          | some (fp, s3) => (digitsToNat ip * 10 ^ fp.length + digitsToNat fp, fp.length, s3)
          | none => (digitsToNat ip, 0, s2)
        else (digitsToNat ip, 0, s2)
      let (mant1, fd1, s4) :=
        if litAt ['e'] s3 || litAt ['E'] s3 then
          let t := s3.drop 1
          let (eneg, t1) :=
            if litAt ['-'] t then (true, t.drop 1)
            else if litAt ['+'] t then (false, t.drop 1)
            else (false, t)
          match munch1 isDigitChar t1 with
          | some (ed, t2) =>
              let e := digitsToNat ed
              if eneg then (mant0, fd0 + e, t2) else (mant0 * 10 ^ e, fd0, t2)
          | none => (mant0, fd0, s3)
        else (mant0, fd0, s3)
      some (Json.num (if neg then -(mant1 : Int) else (mant1 : Int)) fd1, s4)

mutual
def parseValue : Nat → List Char → Option (Json × List Char)
  | 0, _ => none
  | fuel + 1, s =>
      let s := s.dropWhile isJsWs
      match s with
      | [] => none
      | c :: rest =>
          if c == '"' then
            (parseStrBody (fuel + 1) rest).map (fun p => (Json.str p.1, p.2))
          else if c == '\x7b' then
            let r := rest.dropWhile isJsWs
            if litAt ['\x7d'] r then some (Json.obj .nil, r.drop 1)
            else (parseObjItems fuel rest).map (fun p => (Json.obj p.1, p.2))
          else if c == '[' then
            let r := rest.dropWhile isJsWs
            if litAt [']'] r then some (Json.arr .nil, r.drop 1)
            else (parseArrItems fuel rest).map (fun p => (Json.arr p.1, p.2))
          else
            match dropLit ("true".toList) s with
            | some r => some (Json.jbool true, r)
            | none =>
                match dropLit ("false".toList) s with
                | some r => some (Json.jbool false, r)
                | none =>
                    match dropLit ("null".toList) s with
                    | some r => some (Json.nul, r)
                    | none => parseNumLit s

def parseObjItems : Nat → List Char → Option (JsonFields × List Char)
  | 0, _ => none
  | fuel + 1, s =>
      let s := s.dropWhile isJsWs
      match s with
      | '"' :: rest =>
          match parseStrBody (fuel + 1) rest with
          | none => none
          | some (key, r1) =>
              let r2 := r1.dropWhile isJsWs
              match r2 with
              | ':' :: r3 =>
                  match parseValue fuel r3 with
                  | none => none
                  | some (v, r4) =>
                      let r5 := r4.dropWhile isJsWs
                      match r5 with
                      | ',' :: r6 =>
                          (parseObjItems fuel r6).map (fun p => (JsonFields.cons key v p.1, p.2))
                      | '\x7d' :: r6 => some (JsonFields.cons key v .nil, r6)
                      | _ => none
              | _ => none
      | _ => none

def parseArrItems : Nat → List Char → Option (JsonList × List Char)
  | 0, _ => none
  | fuel + 1, s =>
      match parseValue fuel s with
      | none => none
      | some (v, r1) =>
          let r2 := r1.dropWhile isJsWs
          match r2 with
          | ',' :: r3 => (parseArrItems fuel r3).map (fun p => (JsonList.cons v p.1, p.2))
          | ']' :: r3 => some (JsonList.cons v .nil, r3)
          | _ => none
end

/-- `JSON.parse`: the whole input must be one JSON value. -/
def jsonParse (s : List Char) : Option Json :=
  match parseValue (s.length + 1) s with
  | some (j, rest) => if (rest.dropWhile isJsWs).isEmpty then some j else none
  | none => none

example : jsonParse ("\x7b\"a\":\"b\",\"n\":6.875\x7d".toList) =
    some (Json.obj (.cons ("a".toList) (.str ("b".toList))
      (.cons ("n".toList) (.num 6875 3) .nil))) := by decide

example : jsonParse ("\x7b\"o\":\x7b\"x\":1\x7d,\"l\":[1,true,null]\x7d".toList) =
    some (Json.obj (.cons ("o".toList) (.obj (.cons ("x".toList) (.num 1 0) .nil))
      (.cons ("l".toList) (.arr (.cons (.num 1 0) (.cons (.jbool true) (.cons .nul .nil)))) .nil))) := by
  decide

/-! ## String literals of the sources -/

def litSUCCESS : List Char := "SUCCESS".toList
def litFAILED : List Char := "FAILED".toList
def litERROR : List Char := "ERROR".toList
def litLOCK_RESULT : List Char := "LOCK_RESULT".toList
def litSelectiveSuccess : List Char := "SUCCESS: SELECTIVE-LOCK completed".toList
def litSUCCESScolon : List Char := "SUCCESS:".toList
def litAUTOdash : List Char := "AUTO-PROCESS".toList
def litAUTOspace : List Char := "AUTO PROCESS".toList
def litLoanWord : List Char := "loan".toList
def litlockedLower : List Char := "locked".toList
def litLOCKEDupper : List Char := "LOCKED".toList
def litCompleted : List Char := "completed".toList
def litFAILEDcolon : List Char := "FAILED:".toList
def litERRORcolon : List Char := "ERROR:".toList
def litFailedToLock : List Char := "Failed to lock".toList
def litLockFailed : List Char := "Lock failed".toList
def litLockStatusColon : List Char := "Lock Status:".toList
def litFailedWord : List Char := "Failed".toList
def litFAILUREcolon : List Char := "FAILURE:".toList
def litSELECTIVEdash : List Char := "SELECTIVE-LOCK".toList
def keyLockStatus : List Char := "lock_status".toList
def keyNexIdSnake : List Char := "nex_id".toList
def keyNexIdCamel : List Char := "nexId".toList
def keyBorrowerName : List Char := "borrower_name".toList
def keyMessage : List Char := "message".toList
def keyFailureReason : List Char := "failure_reason".toList
def litSuccessVal : List Char := "success".toList
def litFailureVal : List Char := "failure".toList
def litUnknown : List Char := "Unknown".toList
def litNullWord : List Char := "null".toList
def litNotSaved : List Char := "Not Saved".toList
def litLockTagV2 : List Char := "🔒 LOCK_RESULT: ".toList
def litPricingTag : List Char := "💰 PRICING_DATA_OUTPUT:".toList

/-! ## Tiny matcher combinators

A matcher consumes a prefix of its input and returns the rest; `spanOf`
recovers the consumed text, which models a regex `match[0]`. -/

def RxM : Type := List Char → Option (List Char)

def rxAlt (a b : RxM) : RxM := fun s =>
  match a s with
  | some r => some r
  | none => b s

def rxWsStar : RxM := fun s => some (s.dropWhile isJsWs)

def rxWsPlus : RxM := fun s => (munch1 isJsWs s).map (·.2)

def spanOf (m : RxM) (suf : List Char) : Option (List Char) :=
  match m suf with
  | some rest => some (suf.take (suf.length - rest.length))
  | none => none

/-! ## NexID extraction — `extractNexId`, src/api/check-batch-results.js
lines 397-415 (and the identical copy at lines 767-785). -/

def litSuccExtracted : List Char := "Successfully extracted NexID: ".toList
def litNexID : List Char := "NexID".toList
def litQuotedNexId : List Char := "\"nex_id\":".toList

/-- First match of `/Successfully extracted NexID: ([A-Z0-9-]+)/i`. -/
def nexPat1 (s : List Char) : Option (List Char) :=
  scanFirst (fun suf =>
    (dropLitCI litSuccExtracted suf).bind (fun r => (munch1 isNexIdChar r).map (·.1))) s

/-- First match of `/NexID[:\s]+([A-Z0-9-]+)/i`. -/
def nexPat2 (s : List Char) : Option (List Char) :=
  scanFirst (fun suf =>
    (dropLitCI litNexID suf).bind (fun r =>
      (munch1 (fun c => c == ':' || isJsWs c) r).bind (fun p =>
        (munch1 isNexIdChar p.2).map (·.1)))) s

/-- First match of `/nex_id["\s:]+["']?([A-Z0-9-]+)/i`. -/
def nexPat3 (s : List Char) : Option (List Char) :=
  scanFirst (fun suf =>
    (dropLitCI keyNexIdSnake suf).bind (fun r =>
      (munch1 (fun c => c == '"' || isJsWs c || c == ':') r).bind (fun p =>
        let r2 := match p.2 with
          | c :: t => if c == aposChar then t else p.2
          | [] => p.2
        (munch1 isNexIdChar r2).map (·.1)))) s

/-- First match of `/"nex_id":\s*"([A-Z0-9-]+)"/i`. -/
def nexPat4 (s : List Char) : Option (List Char) :=
  scanFirst (fun suf =>
    (dropLitCI litQuotedNexId suf).bind (fun r =>
      let r1 := r.dropWhile isJsWs
      (dropLit ['"'] r1).bind (fun r2 =>
        (munch1 isNexIdChar r2).bind (fun p =>
          (dropLit ['"'] p.2).map (fun _ => p.1))))) s

/-- The per-pattern guard of `extractNexId`: the capture must be truthy and
must not be the sentinel text `null` or `Not Saved`. -/
def nexGuard (o : Option (List Char)) : Option (List Char) :=
  match o with
  | some g => if !g.isEmpty && !(g == litNullWord) && !(g == litNotSaved) then some g else none
  | none => none

/-- `extractNexId(logsText)` — check-batch-results.js lines 397-415. -/
def extractNexId (logsText : List Char) : Option (List Char) :=
  match nexGuard (nexPat1 logsText) with
  | some v => some v
  | none =>
      match nexGuard (nexPat2 logsText) with
      | some v => some v
      | none =>
          match nexGuard (nexPat3 logsText) with
          | some v => some v
          | none => nexGuard (nexPat4 logsText)

example : extractNexId ("Successfully extracted NexID: ABC-123 done".toList) =
    some ("ABC-123".toList) := by decide
example : extractNexId ("NexID: null".toList) = none := by decide
example : extractNexId ("found \"nex_id\": \"NX9\" here".toList) = some ("NX9".toList) := by decide

/-! ## Marker-line captures -/

/-- First match of `/LOCK_RESULT[^{]*({[^}]+})/` (check-batch-results.js
line 225): the capture runs from the first open brace after the tag to the
first close brace after that, which must enclose at least one character. -/
def lockResultCaptureV1 (s : List Char) : Option (List Char) :=
  scanFirst (fun suf =>
    match dropLit litLOCK_RESULT suf with
    | none => none
    | some rest =>
        match rest.dropWhile (fun c => !(c == '\x7b')) with
        | '\x7b' :: inner =>
            let body := inner.takeWhile (fun c => !(c == '\x7d'))
            let after := inner.dropWhile (fun c => !(c == '\x7d'))
            if body.isEmpty then none
            else
              match after with
              | '\x7d' :: _ => some ('\x7b' :: (body ++ ['\x7d']))
              | _ => none
        | _ => none) s

/-- Index of the last occurrence of a character. -/
def lastIdxOfChar (target : Char) : List Char → Option Nat
  | [] => none
  | c :: rest =>
      match lastIdxOfChar target rest with
      | some i => some (i + 1)
      | none => if c == target then some 0 else none

/-- First match of `/🔒 LOCK_RESULT: ({.*})/` (check-batch-results.js line
685): `.` stops at a line end and the greedy `.*` backtracks to the last
close brace of the line. -/
def lockResultCaptureV2 (s : List Char) : Option (List Char) :=
  scanFirst (fun suf =>
    match dropLit litLockTagV2 suf with
    | none => none
    | some rest =>
        match rest with
        | '\x7b' :: more =>
            let line := more.takeWhile (fun c => !(c == '\n' || c == '\x0d'))
            match lastIdxOfChar '\x7d' line with
            | some i => some ('\x7b' :: line.take (i + 1))
            | none => none
        | _ => none) s

/-- First match of `/💰 PRICING_DATA_OUTPUT:\s*({.*})/` (get-pricing-results.js
line 226). -/
def pricingCapture (s : List Char) : Option (List Char) :=
  scanFirst (fun suf =>
    match dropLit litPricingTag suf with
    | none => none
    | some rest =>
        match rest.dropWhile isJsWs with
        | '\x7b' :: more =>
            let line := more.takeWhile (fun c => !(c == '\n' || c == '\x0d'))
            match lastIdxOfChar '\x7d' line with
            | some i => some ('\x7b' :: line.take (i + 1))
            | none => none
        | _ => none) s

example : lockResultCaptureV1 ("x LOCK_RESULT: \x7b\"lock_status\":\"success\"\x7d y".toList) =
    some ("\x7b\"lock_status\":\"success\"\x7d".toList) := by decide
example : lockResultCaptureV2 ("🔒 LOCK_RESULT: \x7b\"a\":\x7b\"b\":1\x7d\x7d tail".toList) =
    some ("\x7b\"a\":\x7b\"b\":1\x7d\x7d".toList) := by decide

/-! ## Success and failure phrase matchers of check-batch-results.js -/

/-- `/SUCCESS:\s*AUTO-PROCESS\s+(?:loan\s+)?(?:locked|completed)/i`
(check-batch-results.js line 249). -/
def autoProcessRegex (s : List Char) : Bool :=
  (scanFirst (fun suf =>
    (dropLitCI litSUCCESScolon suf).bind (fun r1 =>
      let r2 := r1.dropWhile isJsWs
      (dropLitCI litAUTOdash r2).bind (fun r3 =>
        (munch1 isJsWs r3).bind (fun p =>
          let tail := rxAlt (dropLitCI litlockedLower) (dropLitCI litCompleted)
          match (dropLitCI litLoanWord p.2).bind (fun r5 =>
              (munch1 isJsWs r5).bind (fun q => tail q.2)) with
          | some r => some r
          | none => tail p.2)))) s).isSome

/-- The proximity heuristic of check-batch-results.js lines 254-268: the
texts `AUTO-PROCESS`/`AUTO PROCESS`, `SUCCESS` and `locked`/`LOCKED` all
occur and the first `AUTO` position is within 100 characters of the first
`SUCCESS` position. -/
def autoProximity (raw : List Char) : Bool :=
  let hasAutoProcess := jsIncludes raw litAUTOdash || jsIncludes raw litAUTOspace
  let hasSuccessNearby := jsIncludes raw litSUCCESS
  let hasLockedNearby := jsIncludes raw litlockedLower || jsIncludes raw litLOCKEDupper
  if hasAutoProcess && hasSuccessNearby && hasLockedNearby then
    let autoPos : Int :=
      match (if jsIncludes raw litAUTOdash then jsIndexOf raw litAUTOdash
             else jsIndexOf raw litAUTOspace) with
      | some n => (n : Int)
      | none => -1
    let successPos : Int :=
      match jsIndexOf raw litSUCCESS with
      | some n => (n : Int)
      | none => -1
    !(autoPos == -1) && !(successPos == -1) && (autoPos - successPos).natAbs < 100
  else false

/-- `/FAILED:\s*AUTO-PROCESS/i` as a position matcher. -/
def failPat1V1 : RxM := fun s =>
  (dropLitCI litFAILEDcolon s).bind (fun r => dropLitCI litAUTOdash (r.dropWhile isJsWs))

/-- `/ERROR:\s*(?:Failed to lock|Lock failed)/i` as a position matcher. -/
def failPat2V1 : RxM := fun s =>
  (dropLitCI litERRORcolon s).bind (fun r =>
    rxAlt (dropLitCI litFailedToLock) (dropLitCI litLockFailed) (r.dropWhile isJsWs))

/-- `/Lock Status:\s*Failed/i` as a position matcher. -/
def failPat3V1 : RxM := fun s =>
  (dropLitCI litLockStatusColon s).bind (fun r => dropLitCI litFailedWord (r.dropWhile isJsWs))

/-- `/FAILURE:\s*(?:AUTO-PROCESS|SELECTIVE-LOCK)/i` as a position matcher. -/
def failPat4V1 : RxM := fun s =>
  (dropLitCI litFAILUREcolon s).bind (fun r =>
    rxAlt (dropLitCI litAUTOdash) (dropLitCI litSELECTIVEdash) (r.dropWhile isJsWs))

/-- The failure-pattern loop of check-batch-results.js lines 274-288: the
first matching pattern's matched text (`match[0]`) becomes the error
message. -/
def firstFailureSpanV1 (s : List Char) : Option (List Char) :=
  match scanFirst (spanOf failPat1V1) s with
  | some t => some t
  | none =>
      match scanFirst (spanOf failPat2V1) s with
      | some t => some t
      | none =>
          match scanFirst (spanOf failPat3V1) s with
          | some t => some t
          | none => scanFirst (spanOf failPat4V1) s

example : firstFailureSpanV1 ("x Lock Status:   Failed y".toList) =
    some ("Lock Status:   Failed".toList) := by decide
example : autoProcessRegex ("see SUCCESS: AUTO-PROCESS loan locked now".toList) = true := by decide
example : autoProcessRegex ("see SUCCESS: AUTO-PROCESS loanlocked now".toList) = false := by decide

/-! ## Loan-index and borrower-name extraction (check-batch-results.js) -/

def litLoanSp : List Char := "Loan ".toList
def litloanIndexKey : List Char := "loanIndex".toList
def litTriggering : List Char := "Triggering".toList
def litOfWord : List Char := "of".toList
def litProcessWord : List Char := "process".toList
def litPriceWord : List Char := "price".toList
def litBorrowerNameSp : List Char := "Borrower Name".toList
def litborrower : List Char := "borrower".toList
def litname : List Char := "name".toList
def litProcessingLoanFor : List Char := "Processing loan for".toList
def litLoanToLockColon : List Char := "Loan to lock:".toList
def litLoanToLock : List Char := "Loan to lock".toList
def litBorrowerWord : List Char := "Borrower".toList

/-- `/Loan (\d+):/i`. -/
def loanIdxPat1 (s : List Char) : Option (List Char) :=
  scanFirst (fun suf =>
    (dropLitCI litLoanSp suf).bind (fun r =>
      (munch1 isDigitChar r).bind (fun p =>
        (dropLit [':'] p.2).map (fun _ => p.1)))) s

/-- `/loan[_\s]+(\d+)/i`. -/
def loanIdxPat2 (s : List Char) : Option (List Char) :=
  scanFirst (fun suf =>
    (dropLitCI litLoanWord suf).bind (fun r =>
      (munch1 (fun c => c == '_' || isJsWs c) r).bind (fun p =>
        (munch1 isDigitChar p.2).map (·.1)))) s

/-- `/loanIndex["\s:]+(\d+)/i`. -/
def loanIdxPat3 (s : List Char) : Option (List Char) :=
  scanFirst (fun suf =>
    (dropLitCI litloanIndexKey suf).bind (fun r =>
      (munch1 (fun c => c == '"' || isJsWs c || c == ':') r).bind (fun p =>
        (munch1 isDigitChar p.2).map (·.1)))) s

/-- `/Triggering[^0-9]+(\d+)[^0-9]+of/i`: at least one non-digit, the digit
capture, then `of` somewhere after at least one further non-digit. -/
def loanIdxPat4 (s : List Char) : Option (List Char) :=
  scanFirst (fun suf =>
    (dropLitCI litTriggering suf).bind (fun r =>
      (munch1 (fun c => !isDigitChar c) r).bind (fun p =>
        (munch1 isDigitChar p.2).bind (fun q =>
          let ndAfter := q.2.takeWhile (fun c => !isDigitChar c)
          if ciContains (ndAfter.drop 1) litOfWord then some q.1 else none)))) s

/-- First maximal digit run, `/\d+/`. -/
def firstDigitRun (s : List Char) : Option (List Char) :=
  scanFirst (fun suf => (munch1 isDigitChar suf).map (·.1)) s

/-- `/\b(\d+)\b/`: a maximal digit run with word boundaries on both sides.
The `prev` argument carries the character before the current suffix. -/
def bWordDigitRun (prev : Option Char) : List Char → Option (List Char)
  | [] => none
  | c :: rest =>
      if isDigitChar c && !(match prev with | some p => isWordChar p | none => false) then
        let run := c :: rest.takeWhile isDigitChar
        let after := rest.dropWhile isDigitChar
        match after with
        | [] => some run
        | a :: _ => if isWordChar a then bWordDigitRun (some c) rest else some run
      else bWordDigitRun (some c) rest

example : bWordDigitRun none ("ab12cd 345 x".toList) = some ("345".toList) := by decide
example : loanIdxPat4 ("Triggering loan 3 out of 9".toList) = some (['3']) := by decide

/-! ## Data model of the external run resource -/

/-- A workflow run as returned by the platform's list-runs endpoint; the
fields mirror `RunSummary` plus the extra fields the sources read. -/
structure WorkflowRun where
  runId : Nat
  wname : Option (List Char)
  displayTitle : Option (List Char)
  headCommitMsg : Option (List Char)
  event : List Char
  createdAt : Int
  updatedAt : Int
  status : List Char
  conclusion : Option (List Char)
  htmlUrl : List Char
deriving DecidableEq

/-- A job of a run, as read by the job-based fallbacks. -/
structure JobInfo where
  jname : List Char
  jconclusion : Option (List Char)
deriving DecidableEq

/-- `extractLoanIndex(logsText, workflow)` — check-batch-results.js lines
788-811: four log patterns, then any digit run of the workflow name, else
the string `Unknown`. -/
def extractLoanIndex (logsText : List Char) (wf : WorkflowRun) : Json :=
  match loanIdxPat1 logsText with
  | some ds => Json.num (digitsToNat ds : Nat) 0
  | none =>
      match loanIdxPat2 logsText with
      | some ds => Json.num (digitsToNat ds : Nat) 0
      | none =>
          match loanIdxPat3 logsText with
          | some ds => Json.num (digitsToNat ds : Nat) 0
          | none =>
              match loanIdxPat4 logsText with
              | some ds => Json.num (digitsToNat ds : Nat) 0
              | none =>
                  match wf.wname with
                  | some nm =>
                      match firstDigitRun nm with
                      | some ds => Json.num (digitsToNat ds : Nat) 0
                      | none => Json.str litUnknown
                  | none => Json.str litUnknown

/-- `/loan[:\s]*(\d+)/i` (note the `*`: the separator may be absent). -/
def jobIdxCap (word : List Char) (s : List Char) : Option (List Char) :=
  scanFirst (fun suf =>
    (dropLitCI word suf).bind (fun r =>
      (munch1 isDigitChar (r.dropWhile (fun c => c == ':' || isJsWs c))).map (·.1))) s

/-- `extractLoanIndexFromJobName(jobs)` — check-batch-results.js lines
929-946: per job, `/loan[:\s]*(\d+)/i`, `/process[:\s]*(\d+)/i`, then
`/\b(\d+)\b/`; `Unknown` if nothing matches in any job. -/
def extractLoanIndexFromJobName : List JobInfo → Json
  | [] => Json.str litUnknown
  | j :: rest =>
      match jobIdxCap litLoanWord j.jname with
      | some ds => Json.num (digitsToNat ds : Nat) 0
      | none =>
          match jobIdxCap litProcessWord j.jname with
          | some ds => Json.num (digitsToNat ds : Nat) 0
          | none =>
              match bWordDigitRun none j.jname with
              | some ds => Json.num (digitsToNat ds : Nat) 0
              | none => extractLoanIndexFromJobName rest

/-- `extractBorrowerName(logsText)` — check-batch-results.js lines 814-830.
The four `i`-flagged patterns in order; a match is trimmed and returned. -/
def extractBorrowerName (logsText : List Char) : Json :=
  let p1 := scanFirst (fun suf =>
    (dropLitCI litBorrowerNameSp suf).bind (fun r =>
      (munch1 (fun c => c == ':' || isJsWs c) r).bind (fun p =>
        (munch1 (fun c => !(c == '\n')) p.2).map (·.1)))) logsText
  match p1 with
  | some g => Json.str (jsTrim g)
  | none =>
      let p2 := scanFirst (fun suf =>
        (dropLitCI litborrower suf).bind (fun r =>
          (munch1 (fun c => c == '_' || isJsWs c) r).bind (fun p =>
            (dropLitCI litname p.2).bind (fun r2 =>
              (munch1 (fun c => c == '"' || isJsWs c || c == ':') r2).bind (fun q =>
                let r3 := match q.2 with
                  | c :: t => if c == aposChar then t else q.2
                  | [] => q.2
                (munch1 (fun c => !(c == '"' || c == aposChar || c == '\n')) r3).map (·.1)))))) logsText
      match p2 with
      | some g => Json.str (jsTrim g)
      | none =>
          let p3 := scanFirst (fun suf =>
            (dropLitCI litProcessingLoanFor suf).bind (fun r =>
              (munch1 (fun c => c == ':' || isJsWs c) r).bind (fun p =>
                (munch1 (fun c => !(c == '\n')) p.2).map (·.1)))) logsText
          match p3 with
          | some g => Json.str (jsTrim g)
          | none =>
              let p4 := scanFirst (fun suf =>
                (dropLitCI litLoanToLockColon suf).bind (fun r =>
                  (munch1 (fun c => c == ':' || isJsWs c) r).bind (fun p =>
                    (munch1 (fun c => !(c == '-' || c == '\n')) p.2).map (·.1)))) logsText
              match p4 with
              | some g => Json.str (jsTrim g)
              | none => Json.str litUnknown

/-- The inline borrower regex of the primary log path,
`/(?:Loan to lock|Processing loan for|Borrower):[:\s]+([^-\n]+)/i`
(check-batch-results.js line 300). -/
def v1BorrowerCap (s : List Char) : Option (List Char) :=
  scanFirst (fun suf =>
    let tryAlt : List Char → Option (List Char) := fun lit =>
      (dropLitCI lit suf).bind (fun r =>
        (dropLit [':'] r).bind (fun r1 =>
          (munch1 (fun c => c == ':' || isJsWs c) r1).bind (fun p =>
            (munch1 (fun c => !(c == '-' || c == '\n')) p.2).map (·.1))))
    match tryAlt litLoanToLock with
    | some g => some g
    | none =>
        match tryAlt litProcessingLoanFor with
        | some g => some g
        | none => tryAlt litBorrowerWord) s

example : extractBorrowerName ("Borrower Name: Jane Roe\nmore".toList) =
    Json.str ("Jane Roe".toList) := by decide
example : v1BorrowerCap ("Loan to lock:  John Q - rest".toList) =
    some ("John Q ".toList) := by decide

/-! ## Error-message extraction

`extractMainError` is src/unnamed/part_001 lines 252-301 (`i`-flagged
patterns); `extractErrorFromLogs` is src/api/trigger-loan-with-status.js
lines 239-379 (case-sensitive patterns, message and details pair). -/

def litPrepayReq : List Char := "FAILED: Prepay Penalty is required when Occupancy = Investment".toList
def msgPrepayReq : List Char := "Prepay Penalty required for Investment properties".toList
def litInvalidPrepayPre : List Char := "ERROR: Invalid Prepay Penalty \x27".toList
def msgInvalidPrepayA : List Char := "Invalid Prepay Penalty: \"".toList
def msgQuote : List Char := "\"".toList
def litOccupancyNoPrepay : List Char := "ERROR: Occupancy is \x27Investment\x27 but no Prepay Penalty specified".toList
def msgOccupancyNoPrepay : List Char := "Missing Prepay Penalty for Investment loan".toList
def litInvestorPre : List Char := "FAILED: Could not select investor \x27".toList
def msgInvestorA : List Char := "Investor \"".toList
def msgInvestorB : List Char := "\" not found in LoanNex".toList
def litInvestorFilter : List Char := "Failed to apply Investor filter".toList
def msgInvestorFilter : List Char := "Investor filter could not be applied".toList
def litRateSp : List Char := "Rate ".toList
def litRateTail : List Char := "% filtered out all available loans".toList
def msgRateA : List Char := "Interest rate ".toList
def msgRateB : List Char := "% filtered out all loans".toList
def litClickLock : List Char := "Could not click Lock button".toList
def msgClickLock : List Char := "No loans available to lock after applying filters".toList
def litClickSubmit : List Char := "Could not click Submit Lock button".toList
def msgClickSubmit : List Char := "Lock submission failed".toList
def litLoginFailedFor : List Char := "Login failed for ".toList
def msgLoginA : List Char := "Login failed for user ".toList
def msgAutomationFailed : List Char := "Automation process failed".toList
def msgErrorOccurred : List Char := "Error occurred during processing".toList
def litCouldNot : List Char := "Could not".toList
def litDEBUG : List Char := "DEBUG".toList
def litINFO : List Char := "INFO".toList
def msgUnknownError : List Char := "Unknown error - check GitHub Actions logs for details".toList

/-- Capture of a quote-delimited group `([^']+)` after a literal, with the
`i` flag (for example `/FAILED: Could not select investor '([^']+)'/i`). -/
def quoteCapCI (pre : List Char) (s : List Char) : Option (List Char) :=
  scanFirst (fun suf =>
    (dropLitCI pre suf).bind (fun rest =>
      let g := rest.takeWhile (fun c => !(c == aposChar))
      let after := rest.dropWhile (fun c => !(c == aposChar))
      if g.isEmpty then none
      else
        match after with
        | _ :: _ => some g
        | [] => none)) s

/-- Case-sensitive quote-delimited capture. -/
def quoteCapCS (pre : List Char) (s : List Char) : Option (List Char) :=
  scanFirst (fun suf =>
    (dropLit pre suf).bind (fun rest =>
      let g := rest.takeWhile (fun c => !(c == aposChar))
      let after := rest.dropWhile (fun c => !(c == aposChar))
      if g.isEmpty then none
      else
        match after with
        | _ :: _ => some g
        | [] => none)) s

/-- `/Rate ([0-9.]+)% filtered out all available loans/` (`ci` selects the
case-insensitive variant). -/
def rateCap (ci : Bool) (s : List Char) : Option (List Char) :=
  let dl := if ci then dropLitCI else dropLit
  scanFirst (fun suf =>
    (dl litRateSp suf).bind (fun r =>
      (munch1 (fun c => isDigitChar c || c == '.') r).bind (fun p =>
        (dl litRateTail p.2).map (fun _ => p.1)))) s

/-- Position of the last colon at index at least 1 of a line. -/
def lastColonAux : List Char → Nat → Option Nat → Option Nat
  | [], _, best => best
  | c :: rest, i, best =>
      lastColonAux rest (i + 1) (if c == ':' && decide (1 ≤ i) then some i else best)

/-- `/Login failed for (.+):/`: the greedy `.+` backtracks to the last
colon of the line that leaves a nonempty capture. -/
def loginCap (ci : Bool) (s : List Char) : Option (List Char) :=
  let dl := if ci then dropLitCI else dropLit
  scanFirst (fun suf =>
    (dl litLoginFailedFor suf).bind (fun r =>
      let line := r.takeWhile (fun c => !(c == '\n' || c == '\x0d'))
      match lastColonAux line 0 none with
      | some i => some (line.take i)
      | none => none)) s

/-- Leading-digit strip `replace(/^\d+\s*/, '')`. -/
def stripLeadDigitsWs (l : List Char) : List Char :=
  match munch1 isDigitChar l with
  | some (_, r) => r.dropWhile isJsWs
  | none => l

/-- Leading-tag strip `replace(/^(FAILED:|ERROR:)\s*/, '')`. -/
def stripFailTag (l : List Char) : List Char :=
  match dropLit litFAILEDcolon l with
  | some r => r.dropWhile isJsWs
  | none =>
      match dropLit litERRORcolon l with
      | some r => r.dropWhile isJsWs
      | none => l

/-- The fallback line filter of `extractMainError` (part_001 lines 290-294). -/
def mainErrLine? (lines : List (List Char)) : Option (List Char) :=
  lines.find? (fun line =>
    (jsIncludes line litFAILEDcolon || jsIncludes line litERRORcolon ||
      jsIncludes line litCouldNot) &&
    !(jsIncludes line litDEBUG) && !(jsIncludes line litINFO))

/-- `extractMainError(logs)` — src/unnamed/part_001 lines 252-301. -/
def extractMainError (logs : List Char) : List Char :=
  if ciContains logs litPrepayReq then msgPrepayReq
  else
    match quoteCapCI litInvalidPrepayPre logs with
    | some g => msgInvalidPrepayA ++ g ++ msgQuote
    | none =>
        match quoteCapCI litInvestorPre logs with
        | some g => msgInvestorA ++ g ++ msgInvestorB
        | none =>
            if ciContains logs litInvestorFilter then msgInvestorFilter
            else
              match rateCap true logs with
              | some g => msgRateA ++ g ++ msgRateB
              | none =>
                  if ciContains logs litClickLock then msgClickLock
                  else if ciContains logs litClickSubmit then msgClickSubmit
                  else
                    match loginCap true logs with
                    | some g => msgLoginA ++ g
                    | none =>
                        if ciContains logs litFAILEDcolon then msgAutomationFailed
                        else if ciContains logs litERRORcolon then msgErrorOccurred
                        else
                          match mainErrLine? (splitLines logs) with
                          | some line => jsTrim (stripFailTag (stripLeadDigitsWs line))
                          | none => msgUnknownError

example : extractMainError ("ok\nFAILED: Could not select investor \x27Acme Capital\x27\nend".toList) =
    ("Investor \"Acme Capital\" not found in LoanNex".toList) := by decide
example : extractMainError ("Rate 7.25% filtered out all available loans".toList) =
    ("Interest rate 7.25% filtered out all loans".toList) := by decide

/-! ## `extractErrorFromLogs` (trigger-loan-with-status.js lines 239-379) -/

def detPrepayReq : List Char := "Investment occupancy loans must specify a valid Prepay Penalty option (No Penalty, 5 Year, 4 Year, 3 Year, 2 Year, 1 Year).".toList
def detInvalidPrepay : List Char := "Valid Prepay Penalty options: No Penalty, 5 Year, 4 Year, 3 Year, 2 Year, 1 Year".toList
def detOccupancyNoPrepay : List Char := "Investment properties require a Prepay Penalty selection. Add the Prepay Penalty column to your Excel file.".toList
def detInvestorA : List Char := "The investor \"".toList
def detInvestorB : List Char := "\" could not be selected from the available options. Check if the investor name matches exactly in LoanNex.".toList
def detInvestorFilter : List Char := "The investor multiselect dropdown could not be found or operated correctly.".toList
def detRateA : List Char := "The specified interest rate of ".toList
def detRateB : List Char := "% did not match any available loans in the pricing results.".toList
def litRateFilter : List Char := "Failed to apply Interest Rate filter".toList
def msgRateFilter : List Char := "Interest rate filter could not be applied".toList
def detRateFilter : List Char := "The interest rate filter field could not be found or filled in the LoanNex interface.".toList
def litAmortFilter : List Char := "Failed to apply Amortizing Type filter".toList
def msgAmortFilter : List Char := "Amortizing type filter could not be applied".toList
def detAmortFilter : List Char := "The amortizing type dropdown could not be found or the specified option was not available.".toList
def detClickLock : List Char := "After applying the interest rate, investor, and amortizing type filters, no loans remained available for locking. The filters may have been too restrictive.".toList
def litFirstInput : List Char := "Could not find suitable first input field".toList
def msgFirstInput : List Char := "Lock form could not be filled".toList
def detFirstInput : List Char := "The borrower information form did not appear or could not be accessed after clicking Lock.".toList
def detClickSubmit : List Char := "The Submit Lock button could not be found or clicked after filling borrower information.".toList
def detLogin : List Char := "Authentication failed. Check username and password credentials.".toList
def litFieldFill : List Char := "Error filling fields with conditional prepay".toList
def msgFieldFill : List Char := "Form field filling failed".toList
def detFieldFill : List Char := "An error occurred while filling out the loan application form fields.".toList
def litIframe : List Char := "Failed to switch to iframe".toList
def msgIframe : List Char := "Could not access LoanNex interface".toList
def detIframe : List Char := "The LoanNex pricing interface could not be accessed. The page structure may have changed.".toList
def litChrome : List Char := "Failed to initialize Chrome driver".toList
def msgChrome : List Char := "Browser automation failed to start".toList
def detChrome : List Char := "The Chrome browser could not be initialized for automation. This is a system error.".toList
def litGetPrice : List Char := "Error clicking Get Price".toList
def msgGetPrice : List Char := "Pricing calculation failed".toList
def detGetPrice : List Char := "The Get Price button could not be clicked after filling loan fields.".toList
def litLoginFailed : List Char := "Login failed".toList
def litErrorIn : List Char := "Error in".toList
def litExceptionColon : List Char := "Exception:".toList
def litTraceback : List Char := "Traceback".toList
def msgGenericError : List Char := "Automation encountered an error".toList
def msgProcessingFailed : List Char := "Loan processing failed".toList
def detNoSpecific : List Char := "No specific error details could be extracted from the workflow logs".toList

/-- The fallback line filter of `extractErrorFromLogs` (lines 354-363). -/
def statusErrLine? (lines : List (List Char)) : Option (List Char) :=
  lines.find? (fun line =>
    jsIncludes line litFAILEDcolon || jsIncludes line litERRORcolon ||
    jsIncludes line litCouldNot || jsIncludes line litLoginFailed ||
    jsIncludes line litErrorIn || jsIncludes line litExceptionColon ||
    jsIncludes line litTraceback)

/-- Leading-digit strip `replace(/^\d+/, '')` (no whitespace strip). -/
def stripLeadDigitsOnly (l : List Char) : List Char :=
  match munch1 isDigitChar l with
  | some (_, r) => r
  | none => l

/-- `extractErrorFromLogs(logs)` returning the `(message, details)` pair.
All its patterns are case-sensitive. -/
def extractErrorFromLogs (logs : List Char) : List Char × List Char :=
  if jsIncludes logs litPrepayReq then (msgPrepayReq, detPrepayReq)
  else
    match quoteCapCS litInvalidPrepayPre logs with
    | some g => (msgInvalidPrepayA ++ g ++ msgQuote, detInvalidPrepay)
    | none =>
        if jsIncludes logs litOccupancyNoPrepay then (msgOccupancyNoPrepay, detOccupancyNoPrepay)
        else
          match quoteCapCS litInvestorPre logs with
          | some g => (msgInvestorA ++ g ++ msgInvestorB, detInvestorA ++ g ++ detInvestorB)
          | none =>
              if jsIncludes logs litInvestorFilter then (msgInvestorFilter, detInvestorFilter)
              else
                match rateCap false logs with
                | some g => (msgRateA ++ g ++ msgRateB, detRateA ++ g ++ detRateB)
                | none =>
                    if jsIncludes logs litRateFilter then (msgRateFilter, detRateFilter)
                    else if jsIncludes logs litAmortFilter then (msgAmortFilter, detAmortFilter)
                    else if jsIncludes logs litClickLock then (msgClickLock, detClickLock)
                    else if jsIncludes logs litFirstInput then (msgFirstInput, detFirstInput)
                    else if jsIncludes logs litClickSubmit then (msgClickSubmit, detClickSubmit)
                    else
                      match loginCap false logs with
                      | some g => (msgLoginA ++ g, detLogin)
                      | none =>
                          if jsIncludes logs litFieldFill then (msgFieldFill, detFieldFill)
                          else if jsIncludes logs litIframe then (msgIframe, detIframe)
                          else if jsIncludes logs litChrome then (msgChrome, detChrome)
                          else if jsIncludes logs litGetPrice then (msgGetPrice, detGetPrice)
                          else
                            match statusErrLine? (splitLines logs) with
                            | some line =>
                                (msgGenericError,
                                  jsTrim (stripLeadDigitsOnly (jsTrim line)))
                            | none => (msgProcessingFailed, detNoSpecific)

example : (extractErrorFromLogs ("FAILED: Could not select investor \x27Acme Capital\x27".toList)).1 =
    ("Investor \"Acme Capital\" not found in LoanNex".toList) := by decide

/-! ## LoanResult and the two analysis variants of check-batch-results.js -/

/-- A per-run lock analysis result.  Dynamically typed fields (which the
source fills with numbers, strings, `null` or leaves `undefined`) are
`Json`-valued. -/
structure LoanResult where
  workflowId : Nat
  loanIndex : Json
  borrowerName : Json
  nexId : Json
  locked : Bool
  errorMessage : Json
  completedAt : Int
  githubUrl : List Char
  resultStatus : List Char
  successPattern : Json
deriving DecidableEq

def litPatternSearch : List Char := "pattern_search".toList
def litPatternFound : List Char := "Pattern found in logs".toList
def litNoSuccessPattern : List Char := "No success pattern found".toList
def litCouldNotDetermine : List Char := "Could not determine lock status from logs".toList
def litWorkflowFailedMsg : List Char := "Workflow failed".toList
def litWorkflowFailurePat : List Char := "Workflow failure indicates lock failed".toList
def litSucceededUnknown : List Char := "Workflow succeeded but lock status unknown (logs unreadable)".toList
def litConclusionOnly : List Char := "workflow_conclusion_only".toList

/-- The conservative fallback `analyzeWorkflowMultipleWays` of the primary
handler (check-batch-results.js lines 342-394): `locked` is never set to
true; a `success` conclusion only yields an "unknown" error message. -/
def analyzeWorkflowMultipleWays (wf : WorkflowRun) : LoanResult :=
  let em : List Char :=
    if wf.conclusion == some litFailureVal then litWorkflowFailedMsg
    else if wf.conclusion == some litSuccessVal then litSucceededUnknown
    else litCouldNotDetermine
  let sp : List Char :=
    if wf.conclusion == some litFailureVal then litWorkflowFailurePat else []
  { workflowId := wf.runId, loanIndex := Json.str litUnknown,
    borrowerName := Json.str litUnknown, nexId := Json.nul, locked := false,
    errorMessage := Json.str em, completedAt := wf.updatedAt,
    githubUrl := wf.htmlUrl, resultStatus := litConclusionOnly,
    successPattern := Json.str sp }

/-- The `LOCK_RESULT` marker of the primary log path: present only when the
raw text contains the tag, the regex matches and the inline JSON parses
(check-batch-results.js lines 224-238). -/
def lockResultParsedV1 (raw : List Char) : Option Json :=
  if jsIncludes raw litLOCK_RESULT then (lockResultCaptureV1 raw).bind jsonParse else none

/-- `locked` as set by the marker step alone. -/
def markerLockedV1 (raw : List Char) : Bool :=
  match lockResultParsedV1 raw with
  | some lr => jsStrictEqStr (lr.getF keyLockStatus) litSuccessVal
  | none => false

/-- The final value of `locked` after the sequential marker, SELECTIVE-LOCK
phrase, AUTO-PROCESS regex and proximity steps of check-batch-results.js
lines 218-270. -/
def lockedFromLogsV1 (raw : List Char) : Bool :=
  let locked1 := markerLockedV1 raw
  let locked2 := if !locked1 && jsIncludes raw litSelectiveSuccess then true else locked1
  if !locked2 then
    if autoProcessRegex raw then true
    else if autoProximity raw then true
    else locked2
  else locked2

/-- `analyzeWorkflowLogs` of the primary handler (check-batch-results.js
lines 162-338).  `none` for the logs models the non-redirect branch at line
328, which falls back to the conclusion-only analysis; the surrounding
fetch and encoding steps are I/O and are abstracted into the `logs?`
argument. -/
def analyzeWorkflowLogs (logs? : Option (List Char)) (wf : WorkflowRun) : LoanResult :=
  match logs? with
  | none => analyzeWorkflowMultipleWays wf
  | some rawData =>
      let hasSuccess := jsIncludes rawData litSUCCESS
      let hasFailed := jsIncludes rawData litFAILED || jsIncludes rawData litERROR
      let mk := lockResultParsedV1 rawData
      let locked := lockedFromLogsV1 rawData
      let nexId : Json :=
        match mk with
        | some lr => jsOr (lr.getF keyNexIdSnake) (lr.getF keyNexIdCamel)
        | none => Json.nul
      let borrower1 : Json :=
        match mk with
        | some lr => jsOr (lr.getF keyBorrowerName) (Json.str litUnknown)
        | none => Json.str litUnknown
      let errMsg1 : Json :=
        match mk with
        | some lr => jsOr (lr.getF keyMessage) (lr.getF keyFailureReason)
        | none => Json.nul
      let errMsg2 : Json :=
        if !locked && (jsIncludes rawData litFAILED || jsIncludes rawData litERROR) then
          match firstFailureSpanV1 rawData with
          | some t => Json.str t
          | none => errMsg1
        else errMsg1
      let loanIdx : Json :=
        match loanIdxPat1 rawData with
        | some ds => Json.num (digitsToNat ds : Nat) 0
        | none =>
            match loanIdxPat2 rawData with
            | some ds => Json.num (digitsToNat ds : Nat) 0
            | none => Json.str litUnknown
      let borrower2 : Json :=
        if borrower1 == Json.str litUnknown then
          match v1BorrowerCap rawData with
          | some g => Json.str (jsTrim g)
          | none => borrower1
        else borrower1
      if !locked && !errMsg2.truthy && !hasSuccess && !hasFailed then
        analyzeWorkflowMultipleWays wf
      else
        { workflowId := wf.runId, loanIndex := loanIdx, borrowerName := borrower2,
          nexId := nexId, locked := locked, errorMessage := errMsg2,
          completedAt := wf.updatedAt, githubUrl := wf.htmlUrl,
          resultStatus := litPatternSearch,
          successPattern := Json.str (if locked then litPatternFound else litNoSuccessPattern) }

def litWfCompletedSucc : List Char := "Workflow completed successfully".toList
def litJobBased : List Char := "job_based_analysis".toList
def litConclusionBased : List Char := "conclusion_based".toList
def litJobQ1 : List Char := "Job \"".toList
def litJobQ2 : List Char := "\" failed".toList
def litConcludedWith : List Char := "Workflow concluded with: ".toList
def litFailedWithConclusion : List Char := "Workflow failed with conclusion: ".toList
def litConcludedSuccessfully : List Char := "Workflow concluded successfully".toList

/-- JavaScript template-literal coercion of a possibly-null conclusion. -/
def conclusionText : Option (List Char) → List Char
  | some s => s
  | none => litNullWord

/-- The fallback `analyzeWorkflowMultipleWays` of the second handler
variant (check-batch-results.js lines 833-926).  `jobs? = some jobs`
models a successful jobs fetch (approach 1), `none` the conclusion-only
approach 2.  In both approaches `locked` is the success heuristic
`workflow.conclusion === 'success'`. -/
def analyzeWorkflowMultipleWaysV2 (wf : WorkflowRun) (jobs? : Option (List JobInfo)) : LoanResult :=
  match jobs? with
  | some jobs =>
      let isSucc := wf.conclusion == some litSuccessVal
      let em : Json :=
        if isSucc then Json.nul
        else
          match jobs.find? (fun j => j.jconclusion == some litFailureVal) with
          | some j => Json.str (litJobQ1 ++ j.jname ++ litJobQ2)
          | none => Json.str (litConcludedWith ++ conclusionText wf.conclusion)
      { workflowId := wf.runId, loanIndex := extractLoanIndexFromJobName jobs,
        borrowerName := Json.str litUnknown, nexId := Json.nul, locked := isSucc,
        errorMessage := em, completedAt := wf.updatedAt, githubUrl := wf.htmlUrl,
        resultStatus := litJobBased,
        successPattern := Json.str (if isSucc then litWfCompletedSucc else []) }
  | none =>
      let locked := wf.conclusion == some litSuccessVal
      { workflowId := wf.runId, loanIndex := Json.str litUnknown,
        borrowerName := Json.str litUnknown, nexId := Json.nul, locked := locked,
        errorMessage :=
          if locked then Json.nul
          else Json.str (litFailedWithConclusion ++ conclusionText wf.conclusion),
        completedAt := wf.updatedAt, githubUrl := wf.htmlUrl,
        resultStatus := litConclusionBased,
        successPattern := Json.str (if locked then litConcludedSuccessfully else []) }

example : (analyzeWorkflowLogs none
    { runId := 1, wname := none, displayTitle := none, headCommitMsg := none,
      event := [], createdAt := 0, updatedAt := 0, status := litCompleted,
      conclusion := some litSuccessVal, htmlUrl := [] }).locked = false := by decide

/-! ## The second `analyzeWorkflowLogs` variant (check-batch-results.js
lines 642-763) -/

def litSUCCESSsp : List Char := "SUCCESS: ".toList
def litSpCompleted : List Char := " completed".toList
def litSuccCompletedName : List Char := "SUCCESS completed".toList
def litSubmitLockClicked : List Char := "Submit Lock button clicked successfully".toList
def litSubmitLockName : List Char := "Submit Lock clicked".toList
def litLOANLOCKED : List Char := "SUCCESS: LOAN LOCKED".toList
def litLoanLockedName : List Char := "LOAN LOCKED".toList
def litLockCompletedSuccessfully : List Char := "Lock completed successfully".toList
def litLockCompletedName : List Char := "Lock completed".toList
def litFAILEDsp : List Char := "FAILED: ".toList
def litSpProcessingFailed : List Char := " processing failed".toList
def litGetPriceButton : List Char := "Could not find or click Get Price button".toList
def msgFailedPricing : List Char := "Failed to get pricing".toList
def litNoLoansAfterFilter : List Char := "No loans available after filtering".toList
def litInitialLockButton : List Char := "Could not click initial Lock button".toList
def litERRORsp : List Char := "ERROR: ".toList
def litLogAnalysis : List Char := "log_analysis".toList
def litLockResultFound : List Char := "LOCK_RESULT JSON found".toList

/-- `/SUCCESS: (AUTO-PROCESS|SELECTIVE-LOCK) completed/i`. -/
def succPat1V2 (s : List Char) : Bool :=
  (scanFirst (fun suf =>
    (dropLitCI litSUCCESSsp suf).bind (fun r =>
      (rxAlt (dropLitCI litAUTOdash) (dropLitCI litSELECTIVEdash) r).bind (fun r2 =>
        dropLitCI litSpCompleted r2))) s).isSome

/-- The success-pattern loop of lines 700-715: the first matching pattern's
name, tried only when no `LOCK_RESULT` line matched. -/
def firstSuccessPatternV2 (logsText : List Char) : Option (List Char) :=
  if succPat1V2 logsText then some litSuccCompletedName
  else if ciContains logsText litSubmitLockClicked then some litSubmitLockName
  else if ciContains logsText litLOANLOCKED then some litLoanLockedName
  else if ciContains logsText litLockCompletedSuccessfully then some litLockCompletedName
  else none

/-- `/FAILED: (AUTO-PROCESS|SELECTIVE-LOCK) processing failed/i` with
capture of the alternation text (the `extract: true` entry). -/
def failCap1V2 (s : List Char) : Option (List Char) :=
  scanFirst (fun suf =>
    (dropLitCI litFAILEDsp suf).bind (fun r =>
      let n? : Option Nat :=
        if litAtCI litAUTOdash r then some litAUTOdash.length
        else if litAtCI litSELECTIVEdash r then some litSELECTIVEdash.length
        else none
      n?.bind (fun n =>
        (dropLitCI litSpProcessingFailed (r.drop n)).map (fun _ => r.take n)))) s

/-- `/ERROR: (.+)/i`: the rest of the line after the first `ERROR: `. -/
def errColonCap (s : List Char) : Option (List Char) :=
  scanFirst (fun suf =>
    (dropLitCI litERRORsp suf).bind (fun r =>
      (munch1 (fun c => !(c == '\n' || c == '\x0d')) r).map (·.1))) s

/-- The failure-pattern loop of lines 719-735 (first match wins; `extract`
entries yield their capture). -/
def firstFailureV2 (logsText : List Char) : Option Json :=
  match failCap1V2 logsText with
  | some g => some (Json.str g)
  | none =>
      if ciContains logsText litGetPriceButton then some (Json.str msgFailedPricing)
      else if ciContains logsText litLoginFailed then some (Json.str litLoginFailed)
      else if ciContains logsText litNoLoansAfterFilter then some (Json.str litNoLoansAfterFilter)
      else if ciContains logsText litInitialLockButton then some (Json.str litClickLock)
      else
        match errColonCap logsText with
        | some g => some (Json.str g)
        | none => none

/-- The second handler variant's `analyzeWorkflowLogs` given decoded log
text (lines 672-751; the fetch at lines 647-669 is abstracted into the
`logsText` argument). -/
def analyzeWorkflowLogsV2 (logsText : List Char) (wf : WorkflowRun) : LoanResult :=
  let loanIndex := extractLoanIndex logsText wf
  let borrowerName := extractBorrowerName logsText
  let nexId : Json :=
    match extractNexId logsText with
    | some v => Json.str v
    | none => Json.nul
  let cap := lockResultCaptureV2 logsText
  let mk := cap.bind jsonParse
  let locked1 :=
    match mk with
    | some lr => jsStrictEqStr (lr.getF keyLockStatus) litSuccessVal
    | none => false
  let errMsg1 : Json :=
    match mk with
    | some lr => jsOr (lr.getF keyMessage) (lr.getF keyFailureReason)
    | none => Json.nul
  let sp1 : List Char :=
    match mk with
    | some _ => litLockResultFound
    | none => []
  let phr : Option (List Char) :=
    match cap with
    | some _ => none
    | none => firstSuccessPatternV2 logsText
  let locked2 :=
    match phr with
    | some _ => true
    | none => locked1
  let sp2 : List Char :=
    match phr with
    | some nm => nm
    | none => sp1
  let errMsg2 : Json :=
    if !locked2 && !errMsg1.truthy then
      match firstFailureV2 logsText with
      | some m => m
      | none => errMsg1
    else errMsg1
  { workflowId := wf.runId, loanIndex := loanIndex, borrowerName := borrowerName,
    nexId := nexId, locked := locked2, errorMessage := errMsg2,
    completedAt := wf.updatedAt, githubUrl := wf.htmlUrl,
    resultStatus := litLogAnalysis, successPattern := Json.str sp2 }

/-! ## The batch handler of check-batch-results.js (lines 17-158) -/

/-- The response summary object (lines 138-145). -/
structure Summary where
  totalProcessed : Nat
  successfulLocks : Nat
  failedLocks : Nat
  successRate : Nat
  stillProcessing : Nat
  isComplete : Bool
deriving DecidableEq

/-- Round-half-up of the exact rational `num / den`; equals the JavaScript
`Math.round((num / den))` whenever the double computation is exact enough,
and in particular on all the small counts that occur here. -/
def roundHalfNat (num den : Nat) : Nat := (2 * num + den) / (2 * den)

/-- Lines 129-145: counts, guarded success rate, completion flag.
`Math.round((successfulLocks / results.length) * 100)` is the exact
rational `successfulLocks * 100 / results.length` rounded half-up. -/
def mkSummary (results : List LoanResult) (stillProcessing : Nat) : Summary :=
  let successfulLocks := (results.filter (fun r => r.locked)).length
  let failedLocks := (results.filter (fun r => !r.locked)).length
  { totalProcessed := results.length, successfulLocks := successfulLocks,
    failedLocks := failedLocks,
    successRate :=
      if 0 < results.length then roundHalfNat (successfulLocks * 100) results.length else 0,
    stillProcessing := stillProcessing, isComplete := stillProcessing == 0 }

/-- Creation-time order on runs, the comparator `(a, b) =>
new Date(a.created_at) - new Date(b.created_at)`. -/
def runLE (a b : WorkflowRun) : Prop := a.createdAt ≤ b.createdAt

instance : DecidableRel runLE := fun a b => Int.decLe a.createdAt b.createdAt

instance : IsTotal WorkflowRun runLE := ⟨fun a b => Int.le_total a.createdAt b.createdAt⟩

instance : IsTrans WorkflowRun runLE := ⟨fun _ _ _ => Int.le_trans⟩

/-- Run selection of the primary batch handlers (check-batch-results.js
lines 39-79, get-pricing-results.js lines 40-60): keep the runs created at
or after `batchStartTime - 30000` milliseconds and sort ascending by
creation time. -/
def batchWindowSelect (batchStartTime : Int) (runs : List WorkflowRun) : List WorkflowRun :=
  List.insertionSort runLE (runs.filter (fun r => decide (batchStartTime - 30000 ≤ r.createdAt)))

/-- Run selection of the src/unnamed/part_001 handlers (lines 41-61 and
343-363): `cutoffTime = new Date(batchStartTime)` — no 30-second buffer. -/
def batchWindowSelectPart001 (batchStartTime : Int) (runs : List WorkflowRun) : List WorkflowRun :=
  List.insertionSort runLE (runs.filter (fun r => decide (batchStartTime ≤ r.createdAt)))

/-- The primary check-batch-results handler after validation: select the
window, split completed (status `completed` with a non-null conclusion)
from running, analyze each completed run, summarize.  `logsOf` is the log
archive fetch, `none` meaning the logs endpoint did not redirect. -/
def checkBatchResults (batchStartTime : Int) (runs : List WorkflowRun)
    (logsOf : Nat → Option (List Char)) : Summary × List LoanResult :=
  let batchWorkflows := batchWindowSelect batchStartTime runs
  let completedWorkflows :=
    batchWorkflows.filter (fun r => r.status == litCompleted && r.conclusion.isSome)
  let runningWorkflows :=
    batchWorkflows.filter (fun r => !(r.status == litCompleted) || !r.conclusion.isSome)
  let results := completedWorkflows.map (fun wf => analyzeWorkflowLogs (logsOf wf.runId) wf)
  (mkSummary results runningWorkflows.length, results)

/-! ## Pricing extraction (get-pricing-results.js) -/

def keyPricingStatus : List Char := "pricing_status".toList
def keyBestRateOption : List Char := "best_rate_option".toList
def keyPricingOptions : List Char := "pricing_options".toList
def keyInterestRate : List Char := "interest_rate".toList
def keyRatePeriod : List Char := "rate_period".toList
def keyPricePoints : List Char := "price_points".toList
def keyPriceCost : List Char := "price_cost".toList
def keyProductType : List Char := "product_type".toList
def keyProgramName : List Char := "program_name".toList
def keyProgramDescription : List Char := "program_description".toList
def keyMonthlyPayment : List Char := "monthly_payment".toList
def keyLoanAmount : List Char := "loan_amount".toList
def keyPropertyType : List Char := "property_type".toList
def keyTotalOptions : List Char := "total_options".toList
def keyErrorMessageSnake : List Char := "error_message".toList
def litRealLogExtraction : List Char := "real_log_extraction".toList
def litErrorVal : List Char := "error".toList
def litRealPricingErrPre : List Char := "Real pricing extraction error: ".toList
def litNoPricingData : List Char := "No pricing data found in logs".toList

/-- `extractPricingFromLogs(logsText)` — get-pricing-results.js lines
221-253: first `💰 PRICING_DATA_OUTPUT` regex match, then `JSON.parse`;
any failure yields `null`. -/
def extractPricingFromLogs (logsText : List Char) : Option Json :=
  (pricingCapture logsText).bind jsonParse

/-- `pricingData.best_rate_option?.K || pricingData.pricing_options?.[0]?.K`
(the repeated access pattern of lines 186-193). -/
def broGet (pd : Json) (k : List Char) : Json :=
  jsOr ((pd.getF keyBestRateOption).oc k) (((pd.getF keyPricingOptions).och).oc k)

/-- A pricing analysis result; dynamically typed fields are `Json`. -/
structure PricingResult where
  workflowId : Nat
  loanIndex : Json
  borrowerName : Json
  pricingStatus : Json
  interestRate : Json
  rateDescription : Json
  pricePoints : Json
  priceCost : Json
  productType : Json
  programName : Json
  programDescription : Json
  monthlyPayment : Json
  investor : Json
  loanAmount : Json
  propertyType : Json
  totalOptions : Json
  allPricingOptions : Json
  errorMessage : Json
  completedAt : Int
  githubUrl : List Char
  extractionMethod : List Char
deriving DecidableEq

/-- get-pricing-results.js' `extractLoanIndexFromJobName` (lines 256-274):
like the batch one but with an extra `price` pattern and a `null` default. -/
def extractLoanIndexFromJobNameP : List JobInfo → Json
  | [] => Json.nul
  | j :: rest =>
      match jobIdxCap litLoanWord j.jname with
      | some ds => Json.num (digitsToNat ds : Nat) 0
      | none =>
          match jobIdxCap litProcessWord j.jname with
          | some ds => Json.num (digitsToNat ds : Nat) 0
          | none =>
              match jobIdxCap litPriceWord j.jname with
              | some ds => Json.num (digitsToNat ds : Nat) 0
              | none =>
                  match bWordDigitRun none j.jname with
                  | some ds => Json.num (digitsToNat ds : Nat) 0
                  | none => extractLoanIndexFromJobNameP rest

/-- One source string tried by `extractLoanIndexFromWorkflow`. -/
def srcIdxCap (s : List Char) : Option (List Char) :=
  match jobIdxCap litLoanWord s with
  | some ds => some ds
  | none =>
      match jobIdxCap litProcessWord s with
      | some ds => some ds
      | none =>
          match jobIdxCap litPriceWord s with
          | some ds => some ds
          | none => bWordDigitRun none s

def extractLoanIndexFromWorkflowAux : List (List Char) → Json
  | [] => Json.str litUnknown
  | s :: rest =>
      match srcIdxCap s with
      | some ds => Json.num (digitsToNat ds : Nat) 0
      | none => extractLoanIndexFromWorkflowAux rest

/-- `extractLoanIndexFromWorkflow(workflow)` (lines 277-302): the name,
display title and head-commit message, `.filter(Boolean)`, each tried
against the four patterns. -/
def extractLoanIndexFromWorkflow (wf : WorkflowRun) : Json :=
  extractLoanIndexFromWorkflowAux
    ((([wf.wname, wf.displayTitle, wf.headCommitMsg].filterMap id)).filter (fun s => !s.isEmpty))

/-- `extractRealPricingData` given the pricing job's decoded logs
(get-pricing-results.js lines 122-218; the jobs listing, job selection and
log download of lines 127-166 are I/O abstracted into the `jobs` and
`logsText` arguments).  A missing marker throws at line 172 and is caught
at line 205, yielding the error-shaped result; field values that the
source leaves `undefined` are `Json.undefv` (dropped by serialization). -/
def extractRealPricingData (wf : WorkflowRun) (jobs : List JobInfo) (logsText : List Char) : PricingResult :=
  match extractPricingFromLogs logsText with
  | none =>
      { workflowId := wf.runId, loanIndex := Json.str litUnknown,
        borrowerName := Json.str litUnknown, pricingStatus := Json.str litErrorVal,
        interestRate := Json.undefv, rateDescription := Json.undefv,
        pricePoints := Json.undefv, priceCost := Json.undefv, productType := Json.undefv,
        programName := Json.undefv, programDescription := Json.undefv,
        monthlyPayment := Json.undefv, investor := Json.undefv, loanAmount := Json.undefv,
        propertyType := Json.undefv, totalOptions := Json.undefv,
        allPricingOptions := Json.undefv,
        errorMessage := Json.str (litRealPricingErrPre ++ litNoPricingData),
        completedAt := wf.updatedAt, githubUrl := wf.htmlUrl,
        extractionMethod := litErrorVal }
  | some pd =>
      { workflowId := wf.runId,
        loanIndex := jsOr (extractLoanIndexFromJobNameP jobs) (extractLoanIndexFromWorkflow wf),
        borrowerName := jsOr (pd.getF keyBorrowerName) (Json.str litUnknown),
        pricingStatus := jsOr (pd.getF keyPricingStatus) (Json.str litSuccessVal),
        interestRate := broGet pd keyInterestRate,
        rateDescription := broGet pd keyRatePeriod,
        pricePoints := broGet pd keyPricePoints,
        priceCost := broGet pd keyPriceCost,
        productType := broGet pd keyProductType,
        programName := broGet pd keyProgramName,
        programDescription := broGet pd keyProgramDescription,
        monthlyPayment := broGet pd keyMonthlyPayment,
        investor := jsOr ((pd.getF keyBestRateOption).oc keyProgramName) (Json.str litUnknown),
        loanAmount := pd.getF keyLoanAmount,
        propertyType := pd.getF keyPropertyType,
        totalOptions := jsOr (pd.getF keyTotalOptions) (Json.num 0 0),
        allPricingOptions := jsOr (pd.getF keyPricingOptions) (Json.arr .nil),
        errorMessage := jsOr (pd.getF keyErrorMessageSnake) Json.nul,
        completedAt := wf.updatedAt, githubUrl := wf.htmlUrl,
        extractionMethod := litRealLogExtraction }

/-! ## The trigger endpoints

`trigger-loan.js`, `trigger-pricing-only.js` and
`trigger-selective-locks.js` are embedded as functions of the request
method, the JSON body and an environment describing the process
configuration and the external platform's replies.  The outcome is either
an HTTP response or an uncaught JavaScript exception. -/

inductive JsOutcome where
  | res : Nat → Json → JsOutcome
  | thrown : List Char → JsOutcome
deriving DecidableEq

/-- The HTTP status of an outcome, `none` when the handler threw. -/
def JsOutcome.statusOf : JsOutcome → Option Nat
  | .res st _ => some st
  | .thrown _ => none

structure TriggerEnv where
  tokenConfigured : Bool
  dispatchOk : Bool
  runsOk : Bool
  runs : List WorkflowRun
  now : Int
  nowIso : List Char
deriving DecidableEq

structure TriggerOutput where
  outcome : JsOutcome
  dispatchCalled : Bool
deriving DecidableEq

def fieldsOf : List (List Char × Json) → JsonFields
  | [] => .nil
  | (k, v) :: rest => .cons k v (fieldsOf rest)

def keySuccess : List Char := "success".toList
def keyError : List Char := "error".toList
def keyTimestamp : List Char := "timestamp".toList
def keyWorkflowRunId : List Char := "workflowRunId".toList
def keyLoanIndex : List Char := "loanIndex".toList
def keyNote : List Char := "note".toList
def keyDebug : List Char := "debug".toList
def keyWorkflowStatus : List Char := "workflowStatus".toList
def keyDetails : List Char := "details".toList
def keyRunUrl : List Char := "runUrl".toList
def keyConclusionK : List Char := "conclusion".toList
def keyPricingOnly : List Char := "pricingOnly".toList
def keySelectiveLock : List Char := "selectiveLock".toList
def keyLoanData : List Char := "loanData".toList
def keyCredentials : List Char := "credentials".toList
def keyRepoUrl : List Char := "repoUrl".toList
def keyTotalRuns : List Char := "totalRuns".toList
def keyFoundRunId : List Char := "foundRunId".toList

def litOPTIONS : List Char := "OPTIONS".toList
def litPOST : List Char := "POST".toList
def litMethodNotAllowed : List Char := "Method not allowed".toList
def litMissingData : List Char := "Missing required loan data or credentials".toList
def litTokenErrTrigger : List Char := "GitHub token not configured in environment variables - add GITHUB_TOKEN to Vercel settings".toList
def litTokenErrEnv : List Char := "GitHub token not configured in environment variables".toList
def litWfTriggered : List Char := "GitHub Actions workflow triggered successfully".toList
def litRepoDispatch : List Char := "repository_dispatch".toList
def litQueued : List Char := "queued".toList
def litInProgress : List Char := "in_progress".toList
def litNoteRunId : List Char := "Workflow started but run ID not available".toList
def litActionsUrl : List Char := "https://github.com/crendy22/llpa-rate-comparator/actions".toList
def litDispatchFailedPre : List Char := "GitHub dispatch failed".toList
def litPricingTriggeredMsg : List Char := "Pricing workflow triggered successfully".toList
def litPricingStartedMsg : List Char := "Pricing automation started - workflow is now running".toList
def litPricingDetails : List Char := "Loan pricing triggered successfully. Use pricing results endpoint to get rates.".toList
def litPricingTriggeredConc : List Char := "pricing_triggered".toList
def litSelTriggeredMsg : List Char := "Selective lock workflow triggered successfully".toList
def litSelStartedMsg : List Char := "Selective lock automation started - workflow is now running".toList
def litSelDetails : List Char := "User-approved loan lock triggered successfully. Use \"Check Final Results\" for actual lock status.".toList
def litSelTriggeredConc : List Char := "selective_lock_triggered".toList
def litGITHUB_OWNER : List Char := "GITHUB_OWNER".toList
def litRefErrPre : List Char := "ReferenceError: ".toList
def litNotDefined : List Char := " is not defined".toList

/-- Descending creation-time order for the run-id lookups. -/
def runGE (a b : WorkflowRun) : Prop := b.createdAt ≤ a.createdAt

instance : DecidableRel runGE := fun a b => Int.decLe b.createdAt a.createdAt

def sortDescByCreated (l : List WorkflowRun) : List WorkflowRun :=
  List.insertionSort runGE l

/-- `trigger-loan.js` (lines 4-148).  Its catch block at lines 138-147
references only in-scope names and returns the 500 JSON. -/
def triggerLoan (method : List Char) (body : Json) (env : TriggerEnv) : TriggerOutput :=
  if method == litOPTIONS then
    { outcome := .res 200 Json.undefv, dispatchCalled := false }
  else if !(method == litPOST) then
    { outcome := .res 405 (Json.obj (fieldsOf [(keyError, Json.str litMethodNotAllowed)])),
      dispatchCalled := false }
  else
    let loanData := body.getF keyLoanData
    let credentials := body.getF keyCredentials
    let loanIndex := body.getF keyLoanIndex
    if !loanData.truthy || !credentials.truthy then
      { outcome := .res 400 (Json.obj (fieldsOf
          [(keySuccess, Json.jbool false), (keyMessage, Json.str litMissingData)])),
        dispatchCalled := false }
    else if !env.tokenConfigured then
      { outcome := .res 500 (Json.obj (fieldsOf
          [(keySuccess, Json.jbool false), (keyMessage, Json.str litTokenErrTrigger),
           (keyTimestamp, Json.str env.nowIso)])),
        dispatchCalled := false }
    else if !env.dispatchOk then
      { outcome := .res 500 (Json.obj (fieldsOf
          [(keySuccess, Json.jbool false), (keyMessage, Json.str litDispatchFailedPre),
           (keyTimestamp, Json.str env.nowIso)])),
        dispatchCalled := true }
    else if !env.runsOk then
      { outcome := .res 200 (Json.obj (fieldsOf
          [(keySuccess, Json.jbool true), (keyMessage, Json.str litWfTriggered),
           (keyWorkflowRunId, Json.nul), (keyLoanIndex, loanIndex),
           (keyTimestamp, Json.str env.nowIso), (keyNote, Json.str litNoteRunId)])),
        dispatchCalled := true }
    else
      let recentRuns := sortDescByCreated (env.runs.filter (fun r =>
        decide (env.now - 60000 < r.createdAt) &&
        (r.event == litRepoDispatch || r.status == litQueued || r.status == litInProgress)))
      let runId : Json :=
        match recentRuns with
        | r :: _ => Json.num (r.runId : Nat) 0
        | [] =>
            match sortDescByCreated (env.runs.filter (fun r =>
                decide (env.now - 60000 < r.createdAt))) with
            | r :: _ => Json.num (r.runId : Nat) 0
            | [] => Json.nul
      { outcome := .res 200 (Json.obj (fieldsOf
          [(keySuccess, Json.jbool true), (keyMessage, Json.str litWfTriggered),
           (keyWorkflowRunId, runId), (keyLoanIndex, loanIndex),
           (keyTimestamp, Json.str env.nowIso),
           (keyDebug, Json.obj (fieldsOf
             [(keyRepoUrl, Json.str litActionsUrl),
              (keyTotalRuns, Json.num (env.runs.length : Nat) 0),
              (keyFoundRunId, Json.jbool runId.truthy)]))])),
        dispatchCalled := true }

/-- The names `const`-declared in the handler function scope OUTSIDE the
try block of trigger-pricing-only.js and trigger-selective-locks.js.
`GITHUB_OWNER`, `GITHUB_REPO` and `GITHUB_TOKEN` are declared inside the
try block (lines 31-33), so the catch block cannot see them. -/
def catchScopeNames : List (List Char) := []

/-- Evaluate a catch block that interpolates `GITHUB_OWNER` into `runUrl`
(trigger-pricing-only.js line 125, trigger-selective-locks.js line 126).
If the name resolved, the intended 500 body would be returned; since it is
not in scope, the catch itself throws a ReferenceError. -/
def scopedCatch (scope : List (List Char)) (body500 : Json) : JsOutcome :=
  if scope.contains litGITHUB_OWNER then .res 500 body500
  else .thrown (litRefErrPre ++ litGITHUB_OWNER ++ litNotDefined)

/-- The run URL lookup shared by the two variants (pricing lines 71-97,
selective lines 72-98): the newest run of the last 30 seconds, else the
fixed actions URL. -/
def recentRunUrl (env : TriggerEnv) : List Char :=
  if env.runsOk then
    match sortDescByCreated (env.runs.filter (fun r =>
        decide (env.now - 30000 < r.createdAt))) with
    | r :: _ => r.htmlUrl
    | [] => litActionsUrl
  else litActionsUrl

/-- The 500 body that the trigger-pricing-only catch block tries to build
(lines 118-130); building its `runUrl` is what throws. -/
def pricingOnlyCatchBody (env : TriggerEnv) (msg : List Char) : Json :=
  Json.obj (fieldsOf
    [(keySuccess, Json.jbool false), (keyMessage, Json.str msg),
     (keyWorkflowStatus, Json.obj (fieldsOf
       [(keySuccess, Json.jbool false),
        (keyMessage, Json.str ("Failed to trigger pricing automation".toList)),
        (keyDetails, Json.str msg),
        (keyRunUrl, Json.str litActionsUrl),
        (keyConclusionK, Json.str litErrorVal),
        (keyPricingOnly, Json.jbool true)])),
     (keyTimestamp, Json.str env.nowIso)])

/-- `trigger-pricing-only.js` (lines 4-132). -/
def triggerPricingOnly (method : List Char) (body : Json) (env : TriggerEnv) : TriggerOutput :=
  if method == litOPTIONS then
    { outcome := .res 200 Json.undefv, dispatchCalled := false }
  else if !(method == litPOST) then
    { outcome := .res 405 (Json.obj (fieldsOf [(keyError, Json.str litMethodNotAllowed)])),
      dispatchCalled := false }
  else
    let loanData := body.getF keyLoanData
    let credentials := body.getF keyCredentials
    let loanIndex := body.getF keyLoanIndex
    if !loanData.truthy || !credentials.truthy then
      { outcome := .res 400 (Json.obj (fieldsOf
          [(keySuccess, Json.jbool false), (keyMessage, Json.str litMissingData)])),
        dispatchCalled := false }
    else if !env.tokenConfigured then
      { outcome := scopedCatch catchScopeNames (pricingOnlyCatchBody env litTokenErrEnv),
        dispatchCalled := false }
    else if !env.dispatchOk then
      { outcome := scopedCatch catchScopeNames (pricingOnlyCatchBody env litDispatchFailedPre),
        dispatchCalled := true }
    else
      { outcome := .res 200 (Json.obj (fieldsOf
          [(keySuccess, Json.jbool true), (keyMessage, Json.str litPricingTriggeredMsg),
           (keyWorkflowStatus, Json.obj (fieldsOf
             [(keySuccess, Json.jbool false),
              (keyMessage, Json.str litPricingStartedMsg),
              (keyDetails, Json.str litPricingDetails),
              (keyRunUrl, Json.str (recentRunUrl env)),
              (keyConclusionK, Json.str litPricingTriggeredConc),
              (keyPricingOnly, Json.jbool true)])),
           (keyLoanIndex, loanIndex), (keyTimestamp, Json.str env.nowIso)])),
        dispatchCalled := true }

/-- The 500 body that the trigger-selective-locks catch block tries to
build (lines 119-131). -/
def selectiveCatchBody (env : TriggerEnv) (msg : List Char) : Json :=
  Json.obj (fieldsOf
    [(keySuccess, Json.jbool false), (keyMessage, Json.str msg),
     (keyWorkflowStatus, Json.obj (fieldsOf
       [(keySuccess, Json.jbool false),
        (keyMessage, Json.str ("Failed to trigger selective lock automation".toList)),
        (keyDetails, Json.str msg),
        (keyRunUrl, Json.str litActionsUrl),
        (keyConclusionK, Json.str litErrorVal),
        (keySelectiveLock, Json.jbool true)])),
     (keyTimestamp, Json.str env.nowIso)])

/-- `trigger-selective-locks.js` (lines 4-133). -/
def triggerSelectiveLocks (method : List Char) (body : Json) (env : TriggerEnv) : TriggerOutput :=
  if method == litOPTIONS then
    { outcome := .res 200 Json.undefv, dispatchCalled := false }
  else if !(method == litPOST) then
    { outcome := .res 405 (Json.obj (fieldsOf [(keyError, Json.str litMethodNotAllowed)])),
      dispatchCalled := false }
  else
    let loanData := body.getF keyLoanData
    let credentials := body.getF keyCredentials
    let loanIndex := body.getF keyLoanIndex
    if !loanData.truthy || !credentials.truthy then
      { outcome := .res 400 (Json.obj (fieldsOf
          [(keySuccess, Json.jbool false), (keyMessage, Json.str litMissingData)])),
        dispatchCalled := false }
    else if !env.tokenConfigured then
      { outcome := scopedCatch catchScopeNames (selectiveCatchBody env litTokenErrEnv),
        dispatchCalled := false }
    else if !env.dispatchOk then
      { outcome := scopedCatch catchScopeNames (selectiveCatchBody env litDispatchFailedPre),
        dispatchCalled := true }
    else
      { outcome := .res 200 (Json.obj (fieldsOf
          [(keySuccess, Json.jbool true), (keyMessage, Json.str litSelTriggeredMsg),
           (keyWorkflowStatus, Json.obj (fieldsOf
             [(keySuccess, Json.jbool false),
              (keyMessage, Json.str litSelStartedMsg),
              (keyDetails, Json.str litSelDetails),
              (keyRunUrl, Json.str (recentRunUrl env)),
              (keyConclusionK, Json.str litSelTriggeredConc),
              (keySelectiveLock, Json.jbool true)])),
           (keyLoanIndex, loanIndex), (keyTimestamp, Json.str env.nowIso)])),
        dispatchCalled := true }

/-! ## Shared helper lemmas and concrete fixtures -/

/-- The conservative fallback never reports a lock. -/
theorem analyzeWorkflowMultipleWays_locked (wf : WorkflowRun) :
    (analyzeWorkflowMultipleWays wf).locked = false := rfl

/-- A true `lockedFromLogsV1` comes from one of the four recognized
sources. -/
theorem lockedFromLogsV1_cases (raw : List Char) (h : lockedFromLogsV1 raw = true) :
    markerLockedV1 raw = true ∨ jsIncludes raw litSelectiveSuccess = true ∨
    autoProcessRegex raw = true ∨ autoProximity raw = true := by
  by_cases h1 : markerLockedV1 raw = true
  · exact Or.inl h1
  · by_cases h2 : jsIncludes raw litSelectiveSuccess = true
    · exact Or.inr (Or.inl h2)
    · by_cases h3 : autoProcessRegex raw = true
      · exact Or.inr (Or.inr (Or.inl h3))
      · by_cases h4 : autoProximity raw = true
        · exact Or.inr (Or.inr (Or.inr h4))
        · exfalso
          simp only [Bool.not_eq_true] at h1 h2 h3 h4
          simp [lockedFromLogsV1, h1, h2, h3, h4] at h

/-- A log-path result with `locked = true` got it from `lockedFromLogsV1`. -/
theorem analyzeWorkflowLogs_locked_src (raw : List Char) (wf : WorkflowRun)
    (h : (analyzeWorkflowLogs (some raw) wf).locked = true) :
    lockedFromLogsV1 raw = true := by
  by_cases hc : lockedFromLogsV1 raw = true
  · exact hc
  · exfalso
    have hf : lockedFromLogsV1 raw = false := by
      revert hc; cases lockedFromLogsV1 raw <;> simp
    simp only [analyzeWorkflowLogs, hf] at h
    rw [apply_ite LoanResult.locked] at h
    simp [analyzeWorkflowMultipleWays_locked] at h

/-- A generic completed run with conclusion `success` and no readable logs. -/
def wfConcSuccess : WorkflowRun :=
  { runId := 7, wname := none, displayTitle := none, headCommitMsg := none,
    event := litRepoDispatch, createdAt := 0, updatedAt := 5,
    status := litCompleted, conclusion := some litSuccessVal, htmlUrl := [] }

/-- C1.  The claim quantifies over every LoanResult of batch-results
analysis, but the second handler variant's fallback
(`analyzeWorkflowMultipleWays`, check-batch-results.js lines 855-895)
reports `locked = true` from a `success` conclusion alone, in both its
job-based approach and its conclusion-only approach — no log marker was
seen. -/
theorem c1_counterexample :
    (analyzeWorkflowMultipleWaysV2 wfConcSuccess (some [])).locked = true ∧
    (analyzeWorkflowMultipleWaysV2 wfConcSuccess none).locked = true := by decide

/-- C1 (amended): in the primary (conservative) handler the invariant
holds — the conclusion-only fallback never sets `locked` (a `success`
conclusion alone never yields `locked = true`), and any log-path result
with `locked = true` exhibits one of the recognized success sources: a
parsed `LOCK_RESULT` marker with `lock_status` `success`, the
SELECTIVE-LOCK success phrase, the AUTO-PROCESS success regex, or the
AUTO/SUCCESS proximity heuristic.  The earlier variant embedded as
`analyzeWorkflowMultipleWaysV2` violates the claim as stated. -/
theorem c1_amended_conservative_lock_default :
    (∀ wf : WorkflowRun, (analyzeWorkflowMultipleWays wf).locked = false) ∧
    (∀ (raw : List Char) (wf : WorkflowRun),
      (analyzeWorkflowLogs (some raw) wf).locked = true →
      markerLockedV1 raw = true ∨ jsIncludes raw litSelectiveSuccess = true ∨
      autoProcessRegex raw = true ∨ autoProximity raw = true) :=
  ⟨fun _ => rfl,
   fun raw wf h => lockedFromLogsV1_cases raw (analyzeWorkflowLogs_locked_src raw wf h)⟩

def c1WitnessLogs : List Char := "SUCCESS: SELECTIVE-LOCK completed".toList

/-- C1 witness: the amended theorem applied to a log that carries the
SELECTIVE-LOCK success phrase. -/
theorem c1_witness :
    markerLockedV1 c1WitnessLogs = true ∨
    jsIncludes c1WitnessLogs litSelectiveSuccess = true ∨
    autoProcessRegex c1WitnessLogs = true ∨ autoProximity c1WitnessLogs = true :=
  c1_amended_conservative_lock_default.2 c1WitnessLogs wfConcSuccess (by decide)

/-! ## C9: summary counts -/

/-- Splitting a list by a Boolean field preserves the length. -/
theorem filter_locked_split (l : List LoanResult) :
    (l.filter (fun r => r.locked)).length + (l.filter (fun r => !r.locked)).length = l.length := by
  induction l with
  | nil => rfl
  | cons x xs ih =>
      cases hx : x.locked <;> simp [hx] <;> omega

/-- C9.  In every summary the successful and failed counts partition the
processed results (`successfulLocks + failedLocks = totalProcessed`), and
the success rate is the guarded round of `100 * successfulLocks /
totalProcessed`, defined as 0 when nothing was processed. -/
theorem c9_summary_partition : ∀ (results : List LoanResult) (running : Nat),
    (mkSummary results running).successfulLocks + (mkSummary results running).failedLocks =
      (mkSummary results running).totalProcessed ∧
    (mkSummary results running).successRate =
      (if (mkSummary results running).totalProcessed = 0 then 0
       else roundHalfNat ((mkSummary results running).successfulLocks * 100)
            ((mkSummary results running).totalProcessed)) := by
  intro results running
  constructor
  · simpa only [mkSummary] using filter_locked_split results
  · simp only [mkSummary]
    rcases Nat.eq_zero_or_pos results.length with h | h
    · simp [h]
    · have h0 : ¬results.length = 0 := Nat.pos_iff_ne_zero.mp h
      simp [h, h0]

def lrLocked : LoanResult :=
  { workflowId := 1, loanIndex := Json.str litUnknown, borrowerName := Json.str litUnknown,
    nexId := Json.nul, locked := true, errorMessage := Json.nul, completedAt := 0,
    githubUrl := [], resultStatus := litPatternSearch,
    successPattern := Json.str litPatternFound }

def lrNotLocked : LoanResult :=
  { workflowId := 2, loanIndex := Json.str litUnknown, borrowerName := Json.str litUnknown,
    nexId := Json.nul, locked := false, errorMessage := Json.str litWorkflowFailedMsg,
    completedAt := 0, githubUrl := [], resultStatus := litPatternSearch,
    successPattern := Json.str litNoSuccessPattern }

/-- C9 witness: the invariants at a concrete two-element result list. -/
theorem c9_witness :
    (mkSummary [lrLocked, lrNotLocked] 0).successfulLocks +
      (mkSummary [lrLocked, lrNotLocked] 0).failedLocks =
      (mkSummary [lrLocked, lrNotLocked] 0).totalProcessed ∧
    (mkSummary [lrLocked, lrNotLocked] 0).successRate =
      (if (mkSummary [lrLocked, lrNotLocked] 0).totalProcessed = 0 then 0
       else roundHalfNat ((mkSummary [lrLocked, lrNotLocked] 0).successfulLocks * 100)
            ((mkSummary [lrLocked, lrNotLocked] 0).totalProcessed)) :=
  c9_summary_partition [lrLocked, lrNotLocked] 0

/-! ## C10: extractNexId never returns the sentinels -/

/-- Soundness of the per-pattern guard. -/
theorem nexGuard_sound (o : Option (List Char)) (s : List Char) (h : nexGuard o = some s) :
    o = some s ∧ ¬s = litNullWord ∧ ¬s = litNotSaved := by
  cases o with
  | none => simp [nexGuard] at h
  | some g =>
      simp only [nexGuard] at h
      by_cases hc : (!g.isEmpty && !(g == litNullWord) && !(g == litNotSaved)) = true
      · rw [if_pos hc] at h
        cases h
        simp only [Bool.and_eq_true, Bool.not_eq_true'] at hc
        obtain ⟨⟨_, h2⟩, h3⟩ := hc
        refine ⟨rfl, ?_, ?_⟩
        · intro he; rw [he] at h2; simp at h2
        · intro he; rw [he] at h3; simp at h3
      · rw [if_neg hc] at h
        cases h

/-- C10.  `extractNexId` returns `none` or the first guarded capture of one
of its four patterns, and the returned identifier is never the literal
sentinel `null` or `Not Saved`, even when a pattern captures such text. -/
theorem c10_extractNexId_sentinels : ∀ (logsText s : List Char),
    extractNexId logsText = some s →
    ¬s = litNullWord ∧ ¬s = litNotSaved ∧
    (nexPat1 logsText = some s ∨ nexPat2 logsText = some s ∨
     nexPat3 logsText = some s ∨ nexPat4 logsText = some s) := by
  intro logs s h
  rw [extractNexId] at h
  cases h1 : nexGuard (nexPat1 logs) with
  | some v =>
      rw [h1] at h
      cases h
      obtain ⟨hv, hn1, hn2⟩ := nexGuard_sound _ _ h1
      exact ⟨hn1, hn2, Or.inl hv⟩
  | none =>
      rw [h1] at h
      cases h2 : nexGuard (nexPat2 logs) with
      | some v =>
          rw [h2] at h
          cases h
          obtain ⟨hv, hn1, hn2⟩ := nexGuard_sound _ _ h2
          exact ⟨hn1, hn2, Or.inr (Or.inl hv)⟩
      | none =>
          rw [h2] at h
          cases h3 : nexGuard (nexPat3 logs) with
          | some v =>
              rw [h3] at h
              cases h
              obtain ⟨hv, hn1, hn2⟩ := nexGuard_sound _ _ h3
              exact ⟨hn1, hn2, Or.inr (Or.inr (Or.inl hv))⟩
          | none =>
              rw [h3] at h
              obtain ⟨hv, hn1, hn2⟩ := nexGuard_sound _ _ h
              exact ⟨hn1, hn2, Or.inr (Or.inr (Or.inr hv))⟩

def c10Logs : List Char := "Successfully extracted NexID: ABC-123".toList

/-- C10 witness at a concrete log text. -/
theorem c10_witness :
    ¬("ABC-123".toList) = litNullWord ∧ ¬("ABC-123".toList) = litNotSaved ∧
    (nexPat1 c10Logs = some ("ABC-123".toList) ∨ nexPat2 c10Logs = some ("ABC-123".toList) ∨
     nexPat3 c10Logs = some ("ABC-123".toList) ∨ nexPat4 c10Logs = some ("ABC-123".toList)) :=
  c10_extractNexId_sentinels c10Logs ("ABC-123".toList) (by decide)

/-! ## C6: batch-window selection -/

def c6run : WorkflowRun :=
  { runId := 3, wname := none, displayTitle := none, headCommitMsg := none,
    event := litRepoDispatch, createdAt := 80000, updatedAt := 80000,
    status := litCompleted, conclusion := some litSuccessVal, htmlUrl := [] }

/-- C6.  The claim says every batch-results handler includes a run exactly
when it was created at or after `startTime - 30s`; the src/unnamed/part_001
handlers use `cutoffTime = new Date(batchStartTime)` with no buffer, so a
run created 20 seconds before the start time (within the claimed window)
is excluded there. -/
theorem c6_counterexample :
    ((100000 : Int) - 30000 ≤ c6run.createdAt) ∧
    c6run ∈ [c6run] ∧
    c6run ∉ batchWindowSelectPart001 100000 [c6run] := by decide

/-- C6 (amended): the primary check-batch-results and get-pricing-results
handlers select a run exactly when `createdAt ≥ startTime - 30000` and
return the selection sorted ascending by creation time; the part_001
variants select exactly when `createdAt ≥ startTime` (no buffer), also
sorted ascending. -/
theorem c6_amended_window_filter : ∀ (start : Int) (runs : List WorkflowRun),
    (∀ r, r ∈ batchWindowSelect start runs ↔ (r ∈ runs ∧ start - 30000 ≤ r.createdAt)) ∧
    (batchWindowSelect start runs).Sorted runLE ∧
    (∀ r, r ∈ batchWindowSelectPart001 start runs ↔ (r ∈ runs ∧ start ≤ r.createdAt)) ∧
    (batchWindowSelectPart001 start runs).Sorted runLE := by
  intro start runs
  refine ⟨fun r => ?_, ?_, fun r => ?_, ?_⟩
  · rw [batchWindowSelect, (List.perm_insertionSort runLE _).mem_iff, List.mem_filter]
    simp
  · exact List.sorted_insertionSort runLE _
  · rw [batchWindowSelectPart001, (List.perm_insertionSort runLE _).mem_iff, List.mem_filter]
    simp
  · exact List.sorted_insertionSort runLE _

/-- C6 witness: the amended characterization applied at a concrete window. -/
theorem c6_witness :
    (c6run ∈ batchWindowSelect 100000 [c6run] ↔
      (c6run ∈ [c6run] ∧ (100000 : Int) - 30000 ≤ c6run.createdAt)) ∧
    (batchWindowSelect 100000 [c6run]).Sorted runLE :=
  ⟨(c6_amended_window_filter 100000 [c6run]).1 c6run,
   (c6_amended_window_filter 100000 [c6run]).2.1⟩

/-! ## C4: falsy-guard on the trigger endpoints -/

def envAllOk : TriggerEnv :=
  { tokenConfigured := true, dispatchOk := true, runsOk := true, runs := [],
    now := 0, nowIso := "2025-01-01T00:00:00.000Z".toList }

def bodyEmptyLoanData : Json :=
  Json.obj (fieldsOf
    [(keyLoanData, Json.obj .nil),
     (keyCredentials, Json.obj (fieldsOf [("username".toList, Json.str ("u".toList))])),
     (keyLoanIndex, Json.num 1 0)])

/-- C4.  The guard is JavaScript truthiness (`!loanData || !credentials`),
so a present-but-empty `loanData` object is truthy: the handler does not
return 400 and the dispatch call is reached, contradicting the claim for
empty loan data. -/
theorem c4_counterexample :
    bodyEmptyLoanData.getF keyLoanData = Json.obj .nil ∧
    (triggerLoan litPOST bodyEmptyLoanData envAllOk).dispatchCalled = true ∧
    (triggerLoan litPOST bodyEmptyLoanData envAllOk).outcome.statusOf = some 200 := by decide

/-- C4 (amended): for every POST body whose `loanData` or `credentials`
is falsy (absent, null, empty string or the number 0 — but not an empty
object), trigger-loan and trigger-selective-locks return 400 and never
reach the dispatch call. -/
theorem c4_amended_falsy_guard : ∀ (body : Json) (env : TriggerEnv),
    ((body.getF keyLoanData).truthy = false ∨ (body.getF keyCredentials).truthy = false) →
    (triggerLoan litPOST body env).outcome.statusOf = some 400 ∧
    (triggerLoan litPOST body env).dispatchCalled = false ∧
    (triggerSelectiveLocks litPOST body env).outcome.statusOf = some 400 ∧
    (triggerSelectiveLocks litPOST body env).dispatchCalled = false := by
  intro body env h
  have hm1 : (litPOST == litOPTIONS) = false := by decide
  have hm2 : (litPOST == litPOST) = true := by decide
  have hcond : (!(body.getF keyLoanData).truthy || !(body.getF keyCredentials).truthy) = true := by
    rcases h with h | h <;> simp [h]
  simp [triggerLoan, triggerSelectiveLocks, hm1, hm2, hcond, JsOutcome.statusOf]

def c4WitnessBody : Json := Json.obj (fieldsOf [(keyCredentials, Json.obj .nil)])

/-- C4 witness: a body with no `loanData` key at all. -/
theorem c4_witness :
    (triggerLoan litPOST c4WitnessBody envAllOk).outcome.statusOf = some 400 ∧
    (triggerLoan litPOST c4WitnessBody envAllOk).dispatchCalled = false ∧
    (triggerSelectiveLocks litPOST c4WitnessBody envAllOk).outcome.statusOf = some 400 ∧
    (triggerSelectiveLocks litPOST c4WitnessBody envAllOk).dispatchCalled = false :=
  c4_amended_falsy_guard c4WitnessBody envAllOk (Or.inl (by decide))

/-! ## C3: the catch blocks of the pricing/selective endpoints throw -/

def envNoToken : TriggerEnv :=
  { tokenConfigured := false, dispatchOk := true, runsOk := true, runs := [],
    now := 0, nowIso := "2025-01-01T00:00:00.000Z".toList }

def c3GoodBody : Json :=
  Json.obj (fieldsOf
    [(keyLoanData, Json.obj (fieldsOf [("Loan Amount".toList, Json.num 100 0)])),
     (keyCredentials, Json.obj (fieldsOf [("username".toList, Json.str ("u".toList))])),
     (keyLoanIndex, Json.num 2 0)])

/-- C3.  When an unhandled failure occurs inside trigger-pricing-only or
trigger-selective-locks (here: the missing service token), the catch block
itself throws `ReferenceError: GITHUB_OWNER is not defined` — the
`GITHUB_OWNER`/`GITHUB_REPO` constants it interpolates into `runUrl` are
`const`-scoped inside the try block — so no 500 JSON body is produced.
trigger-loan's catch block, in contrast, returns the documented 500
response.  The code contradicts the claimed (and spec-intended) behavior. -/
theorem c3_catch_scope_bug :
    (triggerPricingOnly litPOST c3GoodBody envNoToken).outcome =
      JsOutcome.thrown (litRefErrPre ++ litGITHUB_OWNER ++ litNotDefined) ∧
    (triggerSelectiveLocks litPOST c3GoodBody envNoToken).outcome =
      JsOutcome.thrown (litRefErrPre ++ litGITHUB_OWNER ++ litNotDefined) ∧
    (triggerLoan litPOST c3GoodBody envNoToken).outcome.statusOf = some 500 := by decide

/-! ## C2: marker priority -/

def c2CexLogs : List Char :=
  "LOCK_RESULT: \x7b\"lock_status\":\"failed\"\x7d SUCCESS: SELECTIVE-LOCK completed".toList

def c2CexMarker : Json := Json.obj (.cons keyLockStatus (Json.str ("failed".toList)) .nil)

/-- C2.  In the primary `analyzeWorkflowLogs` the SELECTIVE-LOCK phrase
check is only guarded by `!locked`, not by the presence of a marker: a log
whose valid `LOCK_RESULT` marker says `lock_status = "failed"` is flipped
to `locked = true` by a later success phrase, contradicting the claim. -/
theorem c2_counterexample :
    lockResultParsedV1 c2CexLogs = some c2CexMarker ∧
    jsStrictEqStr (c2CexMarker.getF keyLockStatus) litSuccessVal = false ∧
    jsIncludes c2CexLogs litSelectiveSuccess = true ∧
    (analyzeWorkflowLogs (some c2CexLogs) wfConcSuccess).locked = true := by decide

/-- C2 (amended): the second `analyzeWorkflowLogs` variant does implement
the claimed priority — when the `🔒 LOCK_RESULT` line matches and its JSON
parses, the phrase heuristics are skipped (`if (!lockResultMatch)`), the
verdict is exactly `lock_status === 'success'`, and the result records the
marker as its source; in the primary variant a later success phrase can
still flip a non-success marker (see the counterexample). -/
theorem c2_amended_marker_priority : ∀ (logsText : List Char) (wf : WorkflowRun)
    (cap : List Char) (lr : Json),
    lockResultCaptureV2 logsText = some cap →
    jsonParse cap = some lr →
    (analyzeWorkflowLogsV2 logsText wf).locked =
      jsStrictEqStr (lr.getF keyLockStatus) litSuccessVal ∧
    (analyzeWorkflowLogsV2 logsText wf).successPattern = Json.str litLockResultFound := by
  intro logsText wf cap lr h1 h2
  refine ⟨?_, ?_⟩ <;> simp [analyzeWorkflowLogsV2, h1, Option.some_bind, h2]

def c2WitLogs : List Char :=
  "🔒 LOCK_RESULT: \x7b\"lock_status\":\"failed\",\"message\":\"Lock rejected\"\x7d and Lock completed successfully".toList

def c2WitCap : List Char :=
  "\x7b\"lock_status\":\"failed\",\"message\":\"Lock rejected\"\x7d".toList

def c2WitMarker : Json :=
  Json.obj (.cons keyLockStatus (Json.str ("failed".toList))
    (.cons keyMessage (Json.str ("Lock rejected".toList)) .nil))

/-- C2 witness: a failed marker is not flipped even though the log also
contains the `Lock completed successfully` phrase. -/
theorem c2_witness :
    (analyzeWorkflowLogsV2 c2WitLogs wfConcSuccess).locked =
      jsStrictEqStr (c2WitMarker.getF keyLockStatus) litSuccessVal ∧
    (analyzeWorkflowLogsV2 c2WitLogs wfConcSuccess).successPattern =
      Json.str litLockResultFound :=
  c2_amended_marker_priority c2WitLogs wfConcSuccess c2WitCap c2WitMarker (by decide) (by decide)

/-! ## C5: the three-run batch scenario -/

def runA : WorkflowRun :=
  { runId := 1, wname := none, displayTitle := none, headCommitMsg := none,
    event := litRepoDispatch, createdAt := 100000, updatedAt := 200000,
    status := litCompleted, conclusion := some litSuccessVal, htmlUrl := "urlA".toList }

def runB : WorkflowRun :=
  { runId := 2, wname := none, displayTitle := none, headCommitMsg := none,
    event := litRepoDispatch, createdAt := 110000, updatedAt := 210000,
    status := litCompleted, conclusion := some litFailureVal, htmlUrl := "urlB".toList }

def runC : WorkflowRun :=
  { runId := 3, wname := none, displayTitle := none, headCommitMsg := none,
    event := litRepoDispatch, createdAt := 120000, updatedAt := 220000,
    status := litInProgress, conclusion := none, htmlUrl := "urlC".toList }

def logsA : List Char :=
  "LOCK_RESULT: \x7b\"lock_status\":\"success\",\"nex_id\":\"NX123\"\x7d".toList

def logsB : List Char := "nothing to report".toList

def scenarioLogs (n : Nat) : Option (List Char) :=
  if n == 1 then some logsA else if n == 2 then some logsB else none

/-- C5.  For the batch of run A (completed, LOCK_RESULT success marker
with nex_id NX123), run B (completed, conclusion failure, no marker) and
run C (in progress), the handler reports totalProcessed 2, successfulLocks
1, failedLocks 1, stillProcessing 1, isComplete false, and A's result
entry carries nexId "NX123". -/
theorem c5_batch_scenario :
    (checkBatchResults 95000 [runC, runB, runA] scenarioLogs).1 =
      { totalProcessed := 2, successfulLocks := 1, failedLocks := 1, successRate := 50,
        stillProcessing := 1, isComplete := false } ∧
    (((checkBatchResults 95000 [runC, runB, runA] scenarioLogs).2.map LoanResult.nexId).head? =
      some (Json.str ("NX123".toList))) := by decide

/-! ## C7: the investor error message -/

def litAcmeLine : List Char := "FAILED: Could not select investor \x27Acme Capital\x27".toList

def c7CexLogs : List Char :=
  "FAILED: Could not select investor \x27Zeta\x27\nFAILED: Could not select investor \x27Acme Capital\x27".toList

/-- C7.  The claim quantifies over every log text containing the literal
Acme Capital line with no higher-priority match, but the extractor uses
the FIRST match of the investor pattern: with an earlier investor line the
extracted message names that investor, not Acme Capital. -/
theorem c7_counterexample :
    jsIncludes c7CexLogs litAcmeLine = true ∧
    ciContains c7CexLogs litPrepayReq = false ∧
    quoteCapCI litInvalidPrepayPre c7CexLogs = none ∧
    extractMainError c7CexLogs = msgInvestorA ++ ("Zeta".toList) ++ msgInvestorB ∧
    ¬(extractMainError c7CexLogs = msgInvestorA ++ ("Acme Capital".toList) ++ msgInvestorB) := by
  decide

/-- C7 (amended): whenever no higher-priority prepay/occupancy pattern
matches and the FIRST match of the investor pattern captures `X` (for the
claim's log, `X` is Acme Capital), both error extractors return exactly
`Investor "X" not found in LoanNex`. -/
theorem c7_amended_investor_message : ∀ (logs X : List Char),
    ciContains logs litPrepayReq = false →
    quoteCapCI litInvalidPrepayPre logs = none →
    quoteCapCI litInvestorPre logs = some X →
    jsIncludes logs litPrepayReq = false →
    jsIncludes logs litOccupancyNoPrepay = false →
    quoteCapCS litInvalidPrepayPre logs = none →
    quoteCapCS litInvestorPre logs = some X →
    extractMainError logs = msgInvestorA ++ X ++ msgInvestorB ∧
    (extractErrorFromLogs logs).1 = msgInvestorA ++ X ++ msgInvestorB := by
  intro logs X h1 h2 h3 h4 h5 h6 h7
  constructor
  · simp [extractMainError, h1, h2, h3]
  · simp [extractErrorFromLogs, h4, h5, h6, h7]

def c7WitLogs : List Char := litAcmeLine

/-- C7 witness: the exact message on a log carrying only the Acme line. -/
theorem c7_witness :
    extractMainError c7WitLogs = msgInvestorA ++ ("Acme Capital".toList) ++ msgInvestorB ∧
    (extractErrorFromLogs c7WitLogs).1 = msgInvestorA ++ ("Acme Capital".toList) ++ msgInvestorB :=
  c7_amended_investor_message c7WitLogs ("Acme Capital".toList) (by decide) (by decide)
    (by decide) (by decide) (by decide) (by decide) (by decide)

/-! ## C8: pricing marker extraction -/

def litJanePricingJson : List Char :=
  "\x7b\"pricing_status\":\"success\",\"borrower_name\":\"Jane Doe\",\"best_rate_option\":\x7b\"interest_rate\":6.875\x7d\x7d".toList

def litJanePricingLine : List Char :=
  "💰 PRICING_DATA_OUTPUT: \x7b\"pricing_status\":\"success\",\"borrower_name\":\"Jane Doe\",\"best_rate_option\":\x7b\"interest_rate\":6.875\x7d\x7d".toList

/-- The value `JSON.parse` produces for the claim's marker line. -/
def janeParsed : Json :=
  Json.obj (.cons keyPricingStatus (Json.str litSuccessVal)
    (.cons keyBorrowerName (Json.str ("Jane Doe".toList))
      (.cons keyBestRateOption (Json.obj (.cons keyInterestRate (Json.num 6875 3) .nil)) .nil)))

def c8CexLogs : List Char :=
  "💰 PRICING_DATA_OUTPUT: \x7b\"pricing_status\":\"success\",\"borrower_name\":\"Other Person\",\"best_rate_option\":\x7b\"interest_rate\":1.25\x7d\x7d\n💰 PRICING_DATA_OUTPUT: \x7b\"pricing_status\":\"success\",\"borrower_name\":\"Jane Doe\",\"best_rate_option\":\x7b\"interest_rate\":6.875\x7d\x7d".toList

/-- C8.  The claim quantifies over every job-log text containing the Jane
Doe marker line, but the extractor takes the FIRST marker match: a log
with an earlier marker line yields that line's borrower and rate instead. -/
theorem c8_counterexample :
    jsIncludes c8CexLogs litJanePricingLine = true ∧
    (extractRealPricingData wfConcSuccess [] c8CexLogs).borrowerName =
      Json.str ("Other Person".toList) ∧
    ¬(("Other Person".toList) = ("Jane Doe".toList)) ∧
    (extractRealPricingData wfConcSuccess [] c8CexLogs).interestRate = Json.num 125 2 := by
  decide

/-- C8 (amended): whenever the FIRST pricing-marker match captures the
claim's inline JSON (in particular when the Jane Doe line is the only
marker line), the pricing extraction parses it and produces borrowerName
"Jane Doe" and interestRate 6.875 (the exact decimal 6875/10^3). -/
theorem c8_amended_first_marker : ∀ (logs : List Char) (wf : WorkflowRun) (jobs : List JobInfo),
    pricingCapture logs = some litJanePricingJson →
    (extractRealPricingData wf jobs logs).borrowerName = Json.str ("Jane Doe".toList) ∧
    (extractRealPricingData wf jobs logs).interestRate = Json.num 6875 3 ∧
    (extractRealPricingData wf jobs logs).pricingStatus = Json.str litSuccessVal := by
  intro logs wf jobs h
  have hp : extractPricingFromLogs logs = some janeParsed := by
    rw [extractPricingFromLogs, h]
    decide
  simp only [extractRealPricingData, hp]
  exact ⟨rfl, rfl, rfl⟩

/-- C8 witness: the amended theorem applied to the claim's exact line. -/
theorem c8_witness :
    (extractRealPricingData wfConcSuccess [] litJanePricingLine).borrowerName =
      Json.str ("Jane Doe".toList) ∧
    (extractRealPricingData wfConcSuccess [] litJanePricingLine).interestRate =
      Json.num 6875 3 ∧
    (extractRealPricingData wfConcSuccess [] litJanePricingLine).pricingStatus =
      Json.str litSuccessVal :=
  c8_amended_first_marker litJanePricingLine wfConcSuccess [] (by decide)
